import Mathlib

set_option maxRecDepth 100000

/-!
Verification of the id3 tag-reading library (Go).

Shallow embedding notes:
- Go strings are byte sequences; we model them as `List Nat` (`GoStr`).
- Go byte slices are also `List Nat`.
- Go's `make([]byte, k)` followed by `Read` yields a buffer of length
  exactly `k`, zero-padded past the bytes actually read; `readBuf` models
  this together with the error behaviour of `bytes.Reader.Read`
  (an error only when the reader is exhausted and `k > 0`).
- A Go runtime panic (index out of range, nil dereference) is modelled by
  `Option`/a dedicated `panicked` outcome, never silently absorbed.
- Machine integers: all sizes handled here are tiny compared to 64-bit
  `int`, so `Nat`/`Int` without wrap-around is faithful on every input we
  reason about.
-/

/-- Go strings are byte sequences; we model them as lists of byte values. -/
abbrev GoStr := List Nat

/-- `s[i]` on a Go slice or string: panics (`none`) when out of range. -/
def goIndex (l : GoStr) (i : Nat) : Option Nat := l.get? i

/-- `s[i:]` on a Go slice: panics when `i > len s`. -/
def goSliceFrom (l : GoStr) (i : Nat) : Option GoStr :=
  if i ≤ l.length then some (l.drop i) else none

/-- `s[i:j]` on a Go slice: panics unless `i ≤ j ≤ len s`. -/
def goSlice (l : GoStr) (i j : Nat) : Option GoStr :=
  if i ≤ j ∧ j ≤ l.length then some ((l.take j).drop i) else none

/-- `f.Read` into `make([]byte, k)` against the remaining byte source:
returns the zero-padded buffer of length `k`, the count of bytes
consumed, and the rest of the source; `none` models the read error that
`bytes.Reader` reports exactly when it is exhausted and `k > 0`. -/
def readBuf (k : Nat) (src : List Nat) : Option (List Nat × Nat × List Nat) :=
  if k > 0 ∧ src = [] then none
  else some (src.take k ++ List.replicate (k - src.length) 0, min k src.length, src.drop k)

/-- Go error values relevant to this library: the per-edition
`ErrTagNotFound` sentinel versus every other (hard) error. -/
inductive GoErr
  | tagNotFound
  | other
deriving DecidableEq, Repr

/-- Outcome of running a tag reader: a tag, a Go error, or a runtime
panic. -/
inductive PRes (α : Type)
  | ok (t : α)
  | err (e : GoErr)
  | panicked
deriving DecidableEq, Repr

/-- lib/encoding.go: the four encoding titles. -/
inductive EncodingTitle
  | iso88591
  | utf16
  | utf16be
  | utf8
deriving DecidableEq, Repr

/-- lib/encoding.go: `type Encoding struct { Title string; Size int }`. -/
structure Encoding where
  title : EncodingTitle
  size : Nat
deriving DecidableEq, Repr

/-- lib/encoding.go: `var Encodings = []Encoding{...}`. -/
def Encodings : List Encoding :=
  [⟨.iso88591, 1⟩, ⟨.utf16, 2⟩, ⟨.utf16be, 2⟩, ⟨.utf8, 1⟩]

/-- Go's `utf8.EncodeRune` for one code point below 0x10000 (the only
range produced here, since lone UTF-16 units never exceed 0xFFFF). -/
def encodeRune (u : Nat) : List Nat :=
  if u < 0x80 then [u]
  else if u < 0x800 then [0xC0 + u / 64, 0x80 + u % 64]
  else [0xE0 + u / 4096, 0x80 + (u / 64) % 64, 0x80 + u % 64]

/-- Go's `utf16.Decode` applied to a single code unit `lo + hi*256`
(as in the source, one unit at a time): an unpaired surrogate becomes
U+FFFD, anything else is itself. -/
def decodeU16Unit (lo hi : Nat) : Nat :=
  let u := lo + hi * 256
  if 0xD800 ≤ u ∧ u < 0xE000 then 0xFFFD else u

/-- The byte-pair loop of `ToUTF8`'s UTF-16 case; `fuel` bounds the
iteration count (`lb` suffices since `i` grows by 2 each step).
Index accesses use `getD`: the source maintains `i + 1 < data.length`
on every access, so the default is never consulted. -/
def utf16LE (data : List Nat) (i lb : Nat) : Nat → List Nat
  | 0 => []
  | fuel + 1 =>
    if i < lb then
      encodeRune (decodeU16Unit (data.getD i 0) (data.getD (i + 1) 0)) ++
        utf16LE data (i + 2) lb fuel
    else []

/-- lib/encoding.go `ToUTF8`. -/
def ToUTF8 (data : GoStr) (enc : Encoding) : GoStr :=
  match enc.title with
  | .iso88591 => (data.map encodeRune).flatten
  | .utf16 =>
    let lb := data.length
    if lb % 2 ≠ 0 ∧ data.getD 0 0 = 0 then utf16LE data 1 lb lb
    else utf16LE data 0 (lb - 1) lb
  | _ => data

/-- lib/convert.go `ByteToInt`: big-endian base-256 fold. -/
def ByteToInt (b : List Nat) : Nat :=
  b.foldl (fun size x => size * 256 + x) 0

/-- An ASCII decimal digit byte. -/
def isDigit (b : Nat) : Bool := decide (48 ≤ b ∧ b ≤ 57)

/-- Value of a list of ASCII digit bytes. -/
def digitsVal (l : List Nat) : Nat :=
  l.foldl (fun a d => a * 10 + (d - 48)) 0

/-- Go's `strconv.Atoi`: the value together with a success flag (Go
returns `(0, err)` on a syntax error; the ignored-error call sites in
this library therefore observe `0`).  64-bit overflow is not modelled:
every input reasoned about is tiny. -/
def Atoi (s : GoStr) : Int × Bool :=
  match s with
  | [] => (0, false)
  | c :: rest =>
    if c = 43 then
      if rest ≠ [] ∧ rest.all isDigit then ((digitsVal rest : Int), true) else (0, false)
    else if c = 45 then
      if rest ≠ [] ∧ rest.all isDigit then (-(digitsVal rest : Int), true) else (0, false)
    else
      if s.all isDigit then ((digitsVal s : Int), true) else (0, false)

/-- Go's `strings.Split(s, "/")` (the separator is a single ASCII byte,
so the byte-level split coincides with this list split). -/
def splitSlash : GoStr → List GoStr
  | [] => [[]]
  | b :: rest =>
    if b = 47 then [] :: splitSlash rest
    else
      match splitSlash rest with
      | [] => [[b]]
      | h :: t => (b :: h) :: t

/-- Go regexp `^[0-9A-Z]+$` `.MatchString`. -/
def matchUpperDigits (s : GoStr) : Bool :=
  decide (s ≠ []) && s.all fun b => decide ((48 ≤ b ∧ b ≤ 57) ∨ (65 ≤ b ∧ b ≤ 90))

/-- Go regexp `[(][0-9]+[)]` `.FindStringIndex` relative to absolute
index `base`: leftmost match of an opening parenthesis, one or more
digits, and a closing parenthesis, as half-open byte offsets. -/
def findParenFrom : GoStr → Nat → Option (Nat × Nat)
  | [], _ => none
  | b :: rest, base =>
    if b = 40 then
      let ds := rest.takeWhile isDigit
      if ds ≠ [] ∧ rest.getD ds.length 0 = 41 then
        some (base, base + ds.length + 2)
      else findParenFrom rest (base + 1)
    else findParenFrom rest (base + 1)

/-- Go regexp `[(][0-9]+[)]` `.FindAllStringIndex`: successive
non-overlapping matches; fuel bounds iterations (each match spans at
least three bytes). -/
def findAllParenAux : GoStr → Nat → Nat → List (Nat × Nat)
  | _, _, 0 => []
  | s, base, fuel + 1 =>
    match findParenFrom s base with
    | none => []
    | some (a, e) => (a, e) :: findAllParenAux (s.drop (e - base)) e fuel

/-- All matches of `[(][0-9]+[)]` in `s`. -/
def findAllParen (s : GoStr) : List (Nat × Nat) :=
  findAllParenAux s 0 (s.length + 1)

/-- Go's `strings.Trim(s, "()")`. -/
def trimParens (s : GoStr) : GoStr :=
  ((s.dropWhile fun b => decide (b = 40 ∨ b = 41)).reverse.dropWhile
    fun b => decide (b = 40 ∨ b = 41)).reverse

/-- The single-byte terminator scan shared by the frame decoders:
`for i := start; i < limit; i += step { if body[i] == 0 { ... } }`,
returning the first index holding a zero byte.  The source only runs
this with `limit = len body`, so `getD` never consults its default;
`step` is an encoding size (1 or 2), and fuel (`limit + 1` at call
sites) bounds the iteration count. -/
def scanZero (body : GoStr) (step limit : Nat) : Nat → Nat → Option Nat
  | _, 0 => none
  | i, fuel + 1 =>
    if i < limit then
      if body.getD i 0 = 0 then some i
      else scanZero body step limit (i + step) fuel
    else none


namespace V1

/-- v1/v1.go `TagSize`. -/
def TagSize : Nat := 128

/-- Modelled from the spec: the fixed legacy genre table (`v1.Genres`),
whose defining file is absent from the source tree (only its callers
are present); the spec fixes it as "a fixed ~192-entry legacy genre
table", so we use 192 opaque placeholder entries.  No claim settled
here depends on the entry texts, only on the table length. -/
def Genres : List GoStr := (List.range 192).map fun i => [71, i]

/-- The byte string "Unknown". -/
def unknownStr : GoStr := [85, 110, 107, 110, 111, 119, 110]

/-- The version strings of v1/v1.go. -/
inductive Version
  | v10
  | v11
deriving DecidableEq, Repr

/-- v1/v1.go `Tag`. -/
structure Tag where
  version : Version
  title : GoStr
  artist : GoStr
  album : GoStr
  year : GoStr
  comment : GoStr
  albumTrack : Nat
  genreIndex : Nat
deriving DecidableEq, Repr

/-- v1/v1.go `Tag.Clear`: empty fields, album track 0, genre index 255. -/
def clearedTag : Tag := ⟨.v10, [], [], [], [], [], 0, 255⟩

/-- The field-reading loops of v1.New: bytes of a fixed range up to the
first zero byte. -/
def fieldUpToZero (b : List Nat) (lo hi : Nat) : GoStr :=
  ((b.drop lo).take (hi - lo)).takeWhile fun x => decide (x ≠ 0)

/-- v1/v1.go `New`: reads the final 128 bytes.  Mirrors the source's
pair of results: on a missing "TAG" magic it returns the *cleared* tag
together with `ErrTagNotFound` (`tag.Clear(); return &tag,
ErrTagNotFound`); a too-short source fails the seek/read and returns no
tag with a hard error. -/
def New (src : List Nat) : Option Tag × Option GoErr :=
  if src.length < TagSize then (none, some .other)
  else
    let b := src.drop (src.length - TagSize)
    if b.take 3 ≠ [84, 65, 71] then (some clearedTag, some .tagNotFound)
    else
      let title := fieldUpToZero b 3 33
      let artist := fieldUpToZero b 33 63
      let album := fieldUpToZero b 63 93
      let year := fieldUpToZero b 93 97
      if b.getD 125 0 = 0 ∧ b.getD 126 0 ≠ 0 then
        (some ⟨.v11, title, artist, album, year, fieldUpToZero b 97 125, b.getD 126 0, b.getD 127 0⟩, none)
      else
        (some ⟨.v10, title, artist, album, year, fieldUpToZero b 97 127, 0, b.getD 127 0⟩, none)

/-- v1/v1.go `Tag.Genre`: table lookup, "Unknown" when the stored index
is beyond the table. -/
def Genre (tag : Tag) : GoStr :=
  if tag.genreIndex < Genres.length then Genres.getD tag.genreIndex []
  else unknownStr

end V1


namespace V22

/-- v22/v22.go `HeaderSize`. -/
def HeaderSize : Nat := 10

/-- v22/v22.go `FrameHeaderSize`. -/
def FrameHeaderSize : Nat := 6

/-- v22/v22.go `FrameType`. -/
inductive FrameType
  | TypeUnknown
  | TypeUniqueFileIdentifier
  | TypeTextInformation
  | TypeURLLink
  | TypeInvolvedPeopleList
  | TypeMusicCDIdentifier
  | TypeEventTimingCodes
  | TypeMPEGLocationLookupTable
  | TypeSyncedTempoCodes
  | TypeUnsychronisedLyricsOrTextTranscription
  | TypeSynchronisedLyricsOrText
  | TypeComments
  | TypeRelativeVolumeAdjustment
  | TypeEqualisation
  | TypeReverb
  | TypeAttachedPicture
  | TypeGeneralEncapsulatedObject
  | TypePlayCounter
  | TypePopularimeter
  | TypeRecommendedBufferSize
  | TypeEncryptedMetaFrame
  | TypeAudioEncryption
  | TypeLinkedInformation
  | TypeiTunesCompilationFlag
deriving DecidableEq, Repr

/-- v22/v22.go `frameBase` (id and declared size). -/
structure FrameBase where
  id : GoStr
  size : Nat
deriving DecidableEq, Repr

/-- v22/v22.go frame values: one constructor per concrete frame struct
built by `New` (frames of other declared types fall to the default
`UnknownFrame` branch of the switch, as in the source). -/
inductive Frame
  | unknown (base : FrameBase) (data : GoStr)
  | text (base : FrameBase) (encoding : Encoding) (textVal : GoStr)
  | urlLink (base : FrameBase) (url : GoStr)
  | attachedPicture (base : FrameBase) (textEncoding : Encoding) (imageFormat : GoStr)
      (pictureType : Nat) (description : GoStr) (pictureData : GoStr)
  | unsyncLyrics (base : FrameBase) (textEncoding : Encoding)
      (language contentDescriptor lyricsOrText : GoStr)
  | comments (base : FrameBase) (textEncoding : Encoding)
      (language shortContentDescription theActualText : GoStr)
  | itunesCompilation (base : FrameBase) (encoding : Encoding) (isPartOfACompilation : Bool)
deriving DecidableEq, Repr

/-- The `frameBase` of a frame. -/
def Frame.base : Frame → FrameBase
  | .unknown b _ => b
  | .text b _ _ => b
  | .urlLink b _ => b
  | .attachedPicture b _ _ _ _ _ => b
  | .unsyncLyrics b _ _ _ _ => b
  | .comments b _ _ _ _ => b
  | .itunesCompilation b _ _ => b

/-- v22/v22.go `Frame.ID`. -/
def Frame.idOf (f : Frame) : GoStr := f.base.id

/-- v22/v22.go `DeclaredFrames` (identifier and semantic type; the
human-readable description strings play no role in decoding and are
kept as trailing comments). -/
def DeclaredFrames : List (GoStr × FrameType) := [
  ([66, 85, 70], FrameType.TypeUnknown),  -- BUF
  ([67, 78, 84], FrameType.TypeUnknown),  -- CNT
  ([67, 79, 77], FrameType.TypeComments),  -- COM
  ([67, 82, 65], FrameType.TypeUnknown),  -- CRA
  ([67, 82, 77], FrameType.TypeUnknown),  -- CRM
  ([69, 84, 67], FrameType.TypeUnknown),  -- ETC
  ([69, 81, 85], FrameType.TypeUnknown),  -- EQU
  ([71, 69, 79], FrameType.TypeUnknown),  -- GEO
  ([73, 80, 76], FrameType.TypeInvolvedPeopleList),  -- IPL
  ([76, 78, 75], FrameType.TypeUnknown),  -- LNK
  ([77, 67, 73], FrameType.TypeUnknown),  -- MCI
  ([77, 76, 76], FrameType.TypeUnknown),  -- MLL
  ([80, 73, 67], FrameType.TypeAttachedPicture),  -- PIC
  ([80, 79, 80], FrameType.TypeUnknown),  -- POP
  ([82, 69, 86], FrameType.TypeUnknown),  -- REV
  ([82, 86, 65], FrameType.TypeUnknown),  -- RVA
  ([83, 76, 84], FrameType.TypeUnknown),  -- SLT
  ([83, 84, 67], FrameType.TypeUnknown),  -- STC
  ([84, 65, 76], FrameType.TypeTextInformation),  -- TAL
  ([84, 66, 80], FrameType.TypeTextInformation),  -- TBP
  ([84, 67, 77], FrameType.TypeTextInformation),  -- TCM
  ([84, 67, 79], FrameType.TypeTextInformation),  -- TCO
  ([84, 67, 82], FrameType.TypeTextInformation),  -- TCR
  ([84, 68, 65], FrameType.TypeTextInformation),  -- TDA
  ([84, 68, 89], FrameType.TypeTextInformation),  -- TDY
  ([84, 69, 78], FrameType.TypeTextInformation),  -- TEN
  ([84, 70, 84], FrameType.TypeTextInformation),  -- TFT
  ([84, 73, 77], FrameType.TypeTextInformation),  -- TIM
  ([84, 75, 69], FrameType.TypeTextInformation),  -- TKE
  ([84, 76, 65], FrameType.TypeTextInformation),  -- TLA
  ([84, 76, 69], FrameType.TypeTextInformation),  -- TLE
  ([84, 77, 84], FrameType.TypeTextInformation),  -- TMT
  ([84, 79, 65], FrameType.TypeTextInformation),  -- TOA
  ([84, 79, 70], FrameType.TypeTextInformation),  -- TOF
  ([84, 79, 76], FrameType.TypeTextInformation),  -- TOL
  ([84, 79, 82], FrameType.TypeTextInformation),  -- TOR
  ([84, 79, 84], FrameType.TypeTextInformation),  -- TOT
  ([84, 80, 49], FrameType.TypeTextInformation),  -- TP1
  ([84, 80, 50], FrameType.TypeTextInformation),  -- TP2
  ([84, 80, 51], FrameType.TypeTextInformation),  -- TP3
  ([84, 80, 52], FrameType.TypeTextInformation),  -- TP4
  ([84, 80, 65], FrameType.TypeTextInformation),  -- TPA
  ([84, 80, 66], FrameType.TypeTextInformation),  -- TPB
  ([84, 82, 67], FrameType.TypeTextInformation),  -- TRC
  ([84, 82, 68], FrameType.TypeTextInformation),  -- TRD
  ([84, 82, 75], FrameType.TypeTextInformation),  -- TRK
  ([84, 83, 73], FrameType.TypeTextInformation),  -- TSI
  ([84, 83, 83], FrameType.TypeTextInformation),  -- TSS
  ([84, 84, 49], FrameType.TypeTextInformation),  -- TT1
  ([84, 84, 50], FrameType.TypeTextInformation),  -- TT2
  ([84, 84, 51], FrameType.TypeTextInformation),  -- TT3
  ([84, 88, 84], FrameType.TypeTextInformation),  -- TXT
  ([84, 88, 88], FrameType.TypeUnknown),  -- TXX
  ([84, 89, 69], FrameType.TypeTextInformation),  -- TYE
  ([84, 67, 80], FrameType.TypeiTunesCompilationFlag),  -- TCP
  ([85, 70, 73], FrameType.TypeUniqueFileIdentifier),  -- UFI
  ([85, 76, 84], FrameType.TypeUnsychronisedLyricsOrTextTranscription),  -- ULT
  ([87, 65, 70], FrameType.TypeURLLink),  -- WAF
  ([87, 65, 82], FrameType.TypeURLLink),  -- WAR
  ([87, 65, 83], FrameType.TypeURLLink),  -- WAS
  ([87, 67, 77], FrameType.TypeURLLink),  -- WCM
  ([87, 67, 80], FrameType.TypeURLLink),  -- WCP
  ([87, 80, 66], FrameType.TypeURLLink),  -- WPB
  ([87, 88, 88], FrameType.TypeUnknown)  -- WXX
]

/-- Map lookup `DeclaredFrames[frameID]`. -/
def lookupDF (id : GoStr) : Option FrameType :=
  (DeclaredFrames.find? fun e => decide (e.1 = id)).map (·.2)

/-- v22/v22.go `Tag` (the source's `New` populates only `frames`,
leaving `size` and the two flag fields at their zero values). -/
structure Tag where
  size : Nat
  flagUnsynchronisation : Bool
  flagCompression : Bool
  frames : List Frame
deriving DecidableEq, Repr

/-- The per-frame switch of v22/v22.go `New`: builds one frame value
from the identifier's declared type and the raw body (whose length is
always `frameSize`, by `make`).  `none` models a runtime panic (body
index or `Encodings` index out of range, slice out of bounds). -/
def mkFrame (fb : FrameBase) (t : Option FrameType) (frameSize : Nat) (body : GoStr) :
    Option Frame :=
  match t with
  | none => some (.unknown fb body)
  | some ft =>
    match ft with
    | .TypeTextInformation => do
      let e0 ← goIndex body 0
      let enc ← Encodings.get? e0
      let tl ← goSliceFrom body 1
      some (.text fb enc (ToUTF8 tl enc))
    | .TypeURLLink => some (.urlLink fb body)
    | .TypeAttachedPicture => do
      let e0 ← goIndex body 0
      let enc ← Encodings.get? e0
      let fmt ← goSlice body 1 4
      let pt ← goIndex body 4
      match scanZero body enc.size frameSize 5 (frameSize + 1) with
      | none => some (.attachedPicture fb enc fmt pt [] [])
      | some i => do
        let d ← goSlice body 5 i
        let pd ← goSliceFrom body (i + enc.size)
        some (.attachedPicture fb enc fmt pt (ToUTF8 d enc) pd)
    | .TypeUnsychronisedLyricsOrTextTranscription => do
      let e0 ← goIndex body 0
      let enc ← Encodings.get? e0
      let lang ← goSlice body 1 4
      match scanZero body enc.size frameSize 4 (frameSize + 1) with
      | none => some (.unsyncLyrics fb enc lang [] [])
      | some i => do
        let d ← goSlice body 4 i
        let tx ← goSliceFrom body (i + enc.size)
        some (.unsyncLyrics fb enc lang (ToUTF8 d enc) (ToUTF8 tx enc))
    | .TypeComments => do
      let e0 ← goIndex body 0
      let enc ← Encodings.get? e0
      let lang ← goSlice body 1 4
      match scanZero body enc.size frameSize 4 (frameSize + 1) with
      | none => some (.comments fb enc lang [] [])
      | some i => do
        let d ← goSlice body 4 i
        let tx ← goSliceFrom body (i + enc.size)
        some (.comments fb enc lang (ToUTF8 d enc) (ToUTF8 tx enc))
    | .TypeiTunesCompilationFlag => do
      let e0 ← goIndex body 0
      let enc ← Encodings.get? e0
      some (.itunesCompilation fb enc (decide (1 < body.length ∧ body.getD 1 0 = 49)))
    | _ => some (.unknown fb body)

/-- The frame loop of v22/v22.go `New`.  Fuel bounds iterations: every
iteration consumes at least one byte of `src` (the 6-byte header read),
so `src.length + 1` at the call site always suffices; the fuel-0 branch
is unreachable. -/
def frameLoop (framesSize : Nat) : List Nat → Nat → List Frame → Nat → PRes (List Frame)
  | _, _, _, 0 => .err .other
  | src, t, acc, fuel + 1 =>
    if t < framesSize then
      match readBuf FrameHeaderSize src with
      | none => .err .other
      | some (fh, n, rest) =>
        let t1 := t + n
        let frameID := fh.take 3
        if ¬ matchUpperDigits frameID then
          if fh.getD 0 0 = 0 then .ok acc.reverse else .err .other
        else
          let frameSize := ByteToInt ((fh.drop 3).take 3)
          match readBuf frameSize rest with
          | none => .err .other
          | some (body, n2, rest2) =>
            let t2 := t1 + n2
            match mkFrame ⟨frameID, frameSize⟩ (lookupDF frameID) frameSize body with
            | none => .panicked
            | some fr => frameLoop framesSize rest2 t2 (fr :: acc) fuel
    else .ok acc.reverse

/-- v22/v22.go `New`. -/
def New (src : List Nat) : PRes Tag :=
  if src.length < HeaderSize then .err .other
  else
    let header := src.take HeaderSize
    if ¬ (header.take 3 = [73, 68, 51] ∧ header.getD 3 0 = 2) then .err .tagNotFound
    else
      let framesSize := ByteToInt ((header.drop 6).take 4)
      let rest := src.drop HeaderSize
      match frameLoop framesSize rest 0 [] (rest.length + 1) with
      | .ok fs => .ok ⟨0, false, false, fs⟩
      | .err e => .err e
      | .panicked => .panicked

/-- v22/v22.go `Tag.Frames` restricted to a list of wanted identifiers
(every accessor below passes exactly one): for each frame in on-disk
order, one copy per matching identifier. -/
def Frames (tag : Tag) (ids : List GoStr) : List Frame :=
  if ids = [] then tag.frames
  else tag.frames.flatMap fun f =>
    ids.filterMap fun i => if f.idOf = i then some f else none

/-- v22/v22.go `Tag.Title` ("TT2"). -/
def Title (tag : Tag) : GoStr :=
  match Frames tag [[84, 84, 50]] with
  | [] => []
  | f :: _ =>
    match f with
    | .text _ _ t => t
    | _ => []

/-- v22/v22.go `Tag.Album` ("TAL"). -/
def Album (tag : Tag) : GoStr :=
  match Frames tag [[84, 65, 76]] with
  | [] => []
  | f :: _ =>
    match f with
    | .text _ _ t => t
    | _ => []

/-- v22/v22.go `Tag.Year` ("TYE"). -/
def Year (tag : Tag) : GoStr :=
  match Frames tag [[84, 89, 69]] with
  | [] => []
  | f :: _ =>
    match f with
    | .text _ _ t => t
    | _ => []

/-- v22/v22.go `Tag.Artists` ("TP1"): every matching text frame is
split on "/" and flattened, in order. -/
def Artists (tag : Tag) : List GoStr :=
  (Frames tag [[84, 80, 49]]).flatMap fun f =>
    match f with
    | .text _ _ t => splitSlash t
    | _ => []

/-- v22/v22.go `Tag.TrackNumberAndPosition` ("TRK"). -/
def TrackNumberAndPosition (tag : Tag) : Int × Int :=
  match Frames tag [[84, 82, 75]] with
  | [] => (0, 0)
  | f :: _ =>
    match f with
    | .text _ _ tx =>
      let t := splitSlash tx
      let trk := if 0 < t.length then (Atoi (t.getD 0 [])).1 else 0
      let pos := if 1 < t.length then (Atoi (t.getD 1 [])).1 else 0
      (trk, pos)
    | _ => (0, 0)

/-- v22/v22.go `genreProcess`: `none` models the runtime panic of
`idxs[1]` when `FindStringIndex` returned nil (no parenthesised group
in `s`), and of a negative table index (unreachable from this call
site). -/
def genreProcess (s : GoStr) : Option GoStr :=
  match findParenFrom s 0 with
  | none => none
  | some (a, e) =>
    if s.drop e ≠ [] ∧ s.getD e 0 ≠ 0 then some (s.drop e)
    else
      let r := Atoi (trimParens ((s.take e).drop a))
      if r.2 then
        if (V1.Genres.length : Int) > r.1 then
          if r.1 < 0 then none
          else some (V1.Genres.getD r.1.toNat [])
        else some []
      else some []

/-- The index-pair loop of v22/v22.go `Tag.Genres`: walks the regexp
matches, running `genreProcess` on each segment between match starts;
returns the accumulated genres and the final `old`. -/
def genresLoop (txt : GoStr) : List (Nat × Nat) → Nat → List GoStr →
    Option (List GoStr × Nat)
  | [], old, acc => some (acc, old)
  | (a, _) :: rest, old, acc =>
    if old = a then genresLoop txt rest old acc
    else
      match genreProcess ((txt.take a).drop old) with
      | none => none
      | some g => genresLoop txt rest a (if g ≠ [] then acc ++ [g] else acc)

/-- v22/v22.go `Tag.Genres` ("TCO"): note the v2.2 variant runs the
segment loop unconditionally (no plain-number pre-check and no special
case for a match-free text, unlike v2.3/v2.4).  `none` models a panic
inside `genreProcess`. -/
def Genres (tag : Tag) : Option (List GoStr) :=
  (Frames tag [[84, 67, 79]]).foldlM
    (fun acc f =>
      match f with
      | .text _ _ txt => do
        let idxs := findAllParen txt
        let (acc2, old) ← genresLoop txt idxs 0 acc
        match genreProcess (txt.drop old) with
        | none => none
        | some g => some (if g ≠ [] then acc2 ++ [g] else acc2)
      | _ => some acc) []

end V22

namespace V23

/-- v23/v23.go `HeaderSize`. -/
def HeaderSize : Nat := 10

/-- v23/v23.go `FrameHeaderSize`. -/
def FrameHeaderSize : Nat := 10

/-- v23/v23.go `FrameType`. -/
inductive FrameType
  | TypeUnknown
  | TypeUniqueFileIdentifier
  | TypeTextInformation
  | TypeUserDefinedTextInformation
  | TypeURLLink
  | TypeUserDefinedURLLink
  | TypeInvolvedPeopleList
  | TypeMusicCDIdentifier
  | TypeEventTimingCodes
  | TypeMPEGLocationLookupTable
  | TypeSyncedTempoCodes
  | TypeUnsychronisedLyricsOrTextTranscription
  | TypeSynchronisedLyricsOrText
  | TypeComments
  | TypeRelativeVolumeAdjustment
  | TypeEqualisation
  | TypeReverb
  | TypeAttachedPicture
  | TypeGeneralEncapsulatedObject
  | TypePlayCounter
  | TypePopularimeter
  | TypeRecommendedBufferSize
  | TypeEncryptedMetaFrame
  | TypeAudioEncryption
  | TypeLinkedInformation
  | TypeTermOfUse
deriving DecidableEq, Repr

/-- v23/v23.go `frameBase`. -/
structure FrameBase where
  id : GoStr
  size : Nat
deriving DecidableEq, Repr

/-- v23/v23.go frame values, one constructor per concrete frame struct
built by `New`. -/
inductive Frame
  | unknown (base : FrameBase) (data : GoStr)
  | text (base : FrameBase) (encoding : Encoding) (textVal : GoStr)
  | userDefinedText (base : FrameBase) (encoding : Encoding) (description value : GoStr)
  | userDefinedURL (base : FrameBase) (encoding : Encoding) (description url : GoStr)
  | urlLink (base : FrameBase) (url : GoStr)
  | attachedPicture (base : FrameBase) (textEncoding : Encoding) (mimeType : GoStr)
      (pictureType : Nat) (description : GoStr) (pictureData : GoStr)
  | unsyncLyrics (base : FrameBase) (textEncoding : Encoding)
      (language contentDescriptor lyricsOrText : GoStr)
  | comments (base : FrameBase) (textEncoding : Encoding)
      (language shortContentDescription theActualText : GoStr)
  | termOfUse (base : FrameBase) (textEncoding : Encoding) (language theActualText : GoStr)
deriving DecidableEq, Repr

/-- The `frameBase` of a frame. -/
def Frame.base : Frame → FrameBase
  | .unknown b _ => b
  | .text b _ _ => b
  | .userDefinedText b _ _ _ => b
  | .userDefinedURL b _ _ _ => b
  | .urlLink b _ => b
  | .attachedPicture b _ _ _ _ _ => b
  | .unsyncLyrics b _ _ _ _ => b
  | .comments b _ _ _ _ => b
  | .termOfUse b _ _ _ => b

/-- v23/v23.go `Frame.ID`. -/
def Frame.idOf (f : Frame) : GoStr := f.base.id

/-- v23/v23.go `DeclaredFrames`. -/
def DeclaredFrames : List (GoStr × FrameType) := [
([65, 69, 78, 67], FrameType.TypeUnknown),  -- AENC
  ([65, 80, 73, 67], FrameType.TypeAttachedPicture),  -- APIC
  ([67, 79, 77, 77], FrameType.TypeComments),  -- COMM
  ([67, 79, 77, 82], FrameType.TypeUnknown),  -- COMR
  ([69, 78, 67, 82], FrameType.TypeUnknown),  -- ENCR
  ([69, 81, 85, 65], FrameType.TypeUnknown),  -- EQUA
  ([69, 84, 67, 79], FrameType.TypeUnknown),  -- ETCO
  ([71, 69, 79, 66], FrameType.TypeUnknown),  -- GEOB
  ([71, 82, 73, 68], FrameType.TypeUnknown),  -- GRID
  ([73, 80, 76, 83], FrameType.TypeUnknown),  -- IPLS
  ([76, 73, 78, 75], FrameType.TypeUnknown),  -- LINK
  ([77, 67, 68, 73], FrameType.TypeUnknown),  -- MCDI
  ([77, 76, 76, 84], FrameType.TypeUnknown),  -- MLLT
  ([79, 87, 78, 69], FrameType.TypeUnknown),  -- OWNE
  ([80, 82, 73, 86], FrameType.TypeUnknown),  -- PRIV
  ([80, 67, 78, 84], FrameType.TypeUnknown),  -- PCNT
  ([80, 79, 80, 77], FrameType.TypeUnknown),  -- POPM
  ([80, 79, 83, 83], FrameType.TypeUnknown),  -- POSS
  ([82, 66, 85, 70], FrameType.TypeUnknown),  -- RBUF
  ([82, 86, 65, 68], FrameType.TypeUnknown),  -- RVAD
  ([82, 86, 82, 66], FrameType.TypeUnknown),  -- RVRB
  ([83, 89, 76, 84], FrameType.TypeUnknown),  -- SYLT
  ([83, 89, 84, 67], FrameType.TypeUnknown),  -- SYTC
  ([84, 65, 76, 66], FrameType.TypeTextInformation),  -- TALB
  ([84, 66, 80, 77], FrameType.TypeTextInformation),  -- TBPM
  ([84, 67, 79, 77], FrameType.TypeTextInformation),  -- TCOM
  ([84, 67, 79, 78], FrameType.TypeTextInformation),  -- TCON
  ([84, 67, 79, 80], FrameType.TypeTextInformation),  -- TCOP
  ([84, 68, 65, 84], FrameType.TypeTextInformation),  -- TDAT
  ([84, 68, 76, 89], FrameType.TypeTextInformation),  -- TDLY
  ([84, 69, 78, 67], FrameType.TypeTextInformation),  -- TENC
  ([84, 69, 88, 84], FrameType.TypeTextInformation),  -- TEXT
  ([84, 70, 76, 84], FrameType.TypeTextInformation),  -- TFLT
  ([84, 73, 77, 69], FrameType.TypeTextInformation),  -- TIME
  ([84, 73, 84, 49], FrameType.TypeTextInformation),  -- TIT1
  ([84, 73, 84, 50], FrameType.TypeTextInformation),  -- TIT2
  ([84, 73, 84, 51], FrameType.TypeTextInformation),  -- TIT3
  ([84, 75, 69, 89], FrameType.TypeTextInformation),  -- TKEY
  ([84, 76, 65, 78], FrameType.TypeTextInformation),  -- TLAN
  ([84, 76, 69, 78], FrameType.TypeTextInformation),  -- TLEN
  ([84, 77, 69, 68], FrameType.TypeTextInformation),  -- TMED
  ([84, 79, 65, 76], FrameType.TypeTextInformation),  -- TOAL
  ([84, 79, 70, 78], FrameType.TypeTextInformation),  -- TOFN
  ([84, 79, 76, 89], FrameType.TypeTextInformation),  -- TOLY
  ([84, 79, 80, 69], FrameType.TypeTextInformation),  -- TOPE
  ([84, 79, 82, 89], FrameType.TypeTextInformation),  -- TORY
  ([84, 79, 87, 78], FrameType.TypeTextInformation),  -- TOWN
  ([84, 80, 69, 49], FrameType.TypeTextInformation),  -- TPE1
  ([84, 80, 69, 50], FrameType.TypeTextInformation),  -- TPE2
  ([84, 80, 69, 51], FrameType.TypeTextInformation),  -- TPE3
  ([84, 80, 69, 52], FrameType.TypeTextInformation),  -- TPE4
  ([84, 80, 79, 83], FrameType.TypeTextInformation),  -- TPOS
  ([84, 80, 85, 66], FrameType.TypeTextInformation),  -- TPUB
  ([84, 82, 67, 75], FrameType.TypeTextInformation),  -- TRCK
  ([84, 82, 68, 65], FrameType.TypeTextInformation),  -- TRDA
  ([84, 82, 83, 78], FrameType.TypeTextInformation),  -- TRSN
  ([84, 82, 83, 79], FrameType.TypeTextInformation),  -- TRSO
  ([84, 83, 73, 90], FrameType.TypeTextInformation),  -- TSIZ
  ([84, 83, 82, 67], FrameType.TypeTextInformation),  -- TSRC
  ([84, 83, 83, 69], FrameType.TypeTextInformation),  -- TSSE
  ([84, 89, 69, 82], FrameType.TypeTextInformation),  -- TYER
  ([84, 88, 88, 88], FrameType.TypeUserDefinedTextInformation),  -- TXXX
  ([85, 70, 73, 68], FrameType.TypeUnknown),  -- UFID
  ([85, 83, 69, 82], FrameType.TypeTermOfUse),  -- USER
  ([85, 83, 76, 84], FrameType.TypeUnsychronisedLyricsOrTextTranscription),  -- USLT
  ([87, 67, 79, 77], FrameType.TypeURLLink),  -- WCOM
  ([87, 67, 79, 80], FrameType.TypeURLLink),  -- WCOP
  ([87, 79, 65, 70], FrameType.TypeURLLink),  -- WOAF
  ([87, 79, 65, 82], FrameType.TypeURLLink),  -- WOAR
  ([87, 79, 65, 83], FrameType.TypeURLLink),  -- WOAS
  ([87, 79, 82, 83], FrameType.TypeURLLink),  -- WORS
  ([87, 80, 65, 89], FrameType.TypeURLLink),  -- WPAY
  ([87, 80, 85, 66], FrameType.TypeURLLink),  -- WPUB
  ([87, 88, 88, 88], FrameType.TypeUserDefinedURLLink),  -- WXXX
  ([84, 67, 77, 80], FrameType.TypeUnknown),  -- TCMP
  ([87, 70, 69, 68], FrameType.TypeURLLink)  -- WFED
]

/-- Map lookup `DeclaredFrames[frameID]`. -/
def lookupDF (id : GoStr) : Option FrameType :=
  (DeclaredFrames.find? fun e => decide (e.1 = id)).map (·.2)

/-- v23/v23.go `Tag`. -/
structure Tag where
  size : Nat
  flagUnsynchronisation : Bool
  flagExtendedHeader : Bool
  flagExperimentalIndicator : Bool
  frames : List Frame
deriving DecidableEq, Repr

/-- The per-frame switch of v23/v23.go `New`; `none` models a runtime
panic, as in the v2.2 decoder. -/
def mkFrame (fb : FrameBase) (t : Option FrameType) (frameSize : Nat) (body : GoStr) :
    Option Frame :=
  match t with
  | none => some (.unknown fb body)
  | some ft =>
    match ft with
    | FrameType.TypeTextInformation => do
      let e0 ← goIndex body 0
      let enc ← Encodings.get? e0
      let tl ← goSliceFrom body 1
      some (.text fb enc (ToUTF8 tl enc))
    | FrameType.TypeUserDefinedTextInformation => do
      let e0 ← goIndex body 0
      let enc ← Encodings.get? e0
      match scanZero body enc.size frameSize 1 (frameSize + 1) with
      | none => some (.userDefinedText fb enc [] [])
      | some i => do
        let d ← goSlice body 1 i
        let v ← goSliceFrom body (i + enc.size)
        some (.userDefinedText fb enc (ToUTF8 d enc) (ToUTF8 v enc))
    | FrameType.TypeUserDefinedURLLink => do
      let e0 ← goIndex body 0
      let enc ← Encodings.get? e0
      match scanZero body enc.size frameSize 1 (frameSize + 1) with
      | none => some (.userDefinedURL fb enc [] [])
      | some i => do
        let d ← goSlice body 1 i
        let u ← goSliceFrom body (i + enc.size)
        some (.userDefinedURL fb enc (ToUTF8 d enc) u)
    | FrameType.TypeURLLink => some (.urlLink fb body)
    | FrameType.TypeAttachedPicture => do
      let e0 ← goIndex body 0
      let enc ← Encodings.get? e0
      match scanZero body 1 frameSize 1 (frameSize + 1) with
      | none => some (.attachedPicture fb enc [] 0 [] [])
      | some i => do
        let mime ← goSlice body 1 i
        let pt ← goIndex body (i + 1)
        match scanZero body enc.size frameSize (i + 2) (frameSize + 1) with
        | none => some (.attachedPicture fb enc mime pt [] [])
        | some j => do
          let d ← goSlice body (i + 2) j
          let pd ← goSliceFrom body (j + enc.size)
          some (.attachedPicture fb enc mime pt (ToUTF8 d enc) pd)
    | FrameType.TypeUnsychronisedLyricsOrTextTranscription => do
      let e0 ← goIndex body 0
      let enc ← Encodings.get? e0
      let lang ← goSlice body 1 4
      match scanZero body enc.size frameSize 4 (frameSize + 1) with
      | none => some (.unsyncLyrics fb enc lang [] [])
      | some i => do
        let d ← goSlice body 4 i
        let tx ← goSliceFrom body (i + enc.size)
        some (.unsyncLyrics fb enc lang (ToUTF8 d enc) (ToUTF8 tx enc))
    | FrameType.TypeComments => do
      let e0 ← goIndex body 0
      let enc ← Encodings.get? e0
      let lang ← goSlice body 1 4
      match scanZero body enc.size frameSize 4 (frameSize + 1) with
      | none => some (.comments fb enc lang [] [])
      | some i => do
        let d ← goSlice body 4 i
        let tx ← goSliceFrom body (i + enc.size)
        some (.comments fb enc lang (ToUTF8 d enc) (ToUTF8 tx enc))
    | FrameType.TypeTermOfUse => do
      let e0 ← goIndex body 0
      let enc ← Encodings.get? e0
      let lang ← goSlice body 1 4
      let tx ← goSliceFrom body 4
      some (.termOfUse fb enc lang (ToUTF8 tx enc))
    | _ => some (.unknown fb body)

/-- The frame loop of v23/v23.go `New`; fuel as in the v2.2 loop. -/
def frameLoop (framesSize : Nat) : List Nat → Nat → List Frame → Nat → PRes (List Frame)
  | _, _, _, 0 => .err .other
  | src, t, acc, fuel + 1 =>
    if t < framesSize then
      match readBuf FrameHeaderSize src with
      | none => .err .other
      | some (fh, n, rest) =>
        let t1 := t + n
        let frameID := fh.take 4
        if ¬ matchUpperDigits frameID then
          if fh.getD 0 0 = 0 then .ok acc.reverse else .err .other
        else
          let frameSize := ByteToInt ((fh.drop 4).take 4)
          match readBuf frameSize rest with
          | none => .err .other
          | some (body, n2, rest2) =>
            let t2 := t1 + n2
            match mkFrame ⟨frameID, frameSize⟩ (lookupDF frameID) frameSize body with
            | none => .panicked
            | some fr => frameLoop framesSize rest2 t2 (fr :: acc) fuel
    else .ok acc.reverse

/-- v23/v23.go `New`. -/
def New (src : List Nat) : PRes Tag :=
  if src.length < HeaderSize then .err .other
  else
    let header := src.take HeaderSize
    if ¬ (header.take 3 = [73, 68, 51] ∧ header.getD 3 0 = 3) then .err .tagNotFound
    else
      let flags := header.getD 5 0
      let framesSize := ByteToInt ((header.drop 6).take 4)
      let rest := src.drop HeaderSize
      match frameLoop framesSize rest 0 [] (rest.length + 1) with
      | .ok fs =>
        .ok ⟨framesSize, flags.land 128 = 128, flags.land 64 = 64, flags.land 32 = 32, fs⟩
      | .err e => .err e
      | .panicked => .panicked

/-- v23/v23.go `Tag.Frames` restricted to wanted identifiers. -/
def Frames (tag : Tag) (ids : List GoStr) : List Frame :=
  if ids = [] then tag.frames
  else tag.frames.flatMap fun f =>
    ids.filterMap fun i => if f.idOf = i then some f else none

/-- v23/v23.go `Tag.Title` ("TIT2"). -/
def Title (tag : Tag) : GoStr :=
  match Frames tag [[84, 73, 84, 50]] with
  | [] => []
  | f :: _ =>
    match f with
    | .text _ _ t => t
    | _ => []

/-- v23/v23.go `Tag.Album` ("TALB"). -/
def Album (tag : Tag) : GoStr :=
  match Frames tag [[84, 65, 76, 66]] with
  | [] => []
  | f :: _ =>
    match f with
    | .text _ _ t => t
    | _ => []

/-- v23/v23.go `Tag.Year` ("TYER"). -/
def Year (tag : Tag) : GoStr :=
  match Frames tag [[84, 89, 69, 82]] with
  | [] => []
  | f :: _ =>
    match f with
    | .text _ _ t => t
    | _ => []

/-- v23/v23.go `Tag.Artists` ("TPE1"). -/
def Artists (tag : Tag) : List GoStr :=
  (Frames tag [[84, 80, 69, 49]]).flatMap fun f =>
    match f with
    | .text _ _ t => splitSlash t
    | _ => []

/-- v23/v23.go `Tag.TrackNumberAndPosition` ("TRCK"). -/
def TrackNumberAndPosition (tag : Tag) : Int × Int :=
  match Frames tag [[84, 82, 67, 75]] with
  | [] => (0, 0)
  | f :: _ =>
    match f with
    | .text _ _ tx =>
      let t := splitSlash tx
      let trk := if 0 < t.length then (Atoi (t.getD 0 [])).1 else 0
      let pos := if 1 < t.length then (Atoi (t.getD 1 [])).1 else 0
      (trk, pos)
    | _ => (0, 0)

/-- v23/v23.go `genreProcess` (textually identical to the v2.2 one);
`none` models the `idxs[1]` panic on a match-free input. -/
def genreProcess (s : GoStr) : Option GoStr :=
  match findParenFrom s 0 with
  | none => none
  | some (a, e) =>
    if s.drop e ≠ [] ∧ s.getD e 0 ≠ 0 then some (s.drop e)
    else
      let r := Atoi (trimParens ((s.take e).drop a))
      if r.2 then
        if (V1.Genres.length : Int) > r.1 then
          if r.1 < 0 then none
          else some (V1.Genres.getD r.1.toNat [])
        else some []
      else some []

/-- The index-pair loop of v23/v23.go `Tag.Genres`. -/
def genresLoop (txt : GoStr) : List (Nat × Nat) → Nat → List GoStr →
    Option (List GoStr × Nat)
  | [], old, acc => some (acc, old)
  | (a, _) :: rest, old, acc =>
    if old = a then genresLoop txt rest old acc
    else
      match genreProcess ((txt.take a).drop old) with
      | none => none
      | some g => genresLoop txt rest a (if g ≠ [] then acc ++ [g] else acc)

/-- v23/v23.go `Tag.Genres` ("TCON"): unlike v2.2 this first tries the
whole text as a plain number (a negative number would panic on the
table index), and appends the text verbatim when the regexp finds no
parenthesised group. -/
def Genres (tag : Tag) : Option (List GoStr) :=
  (Frames tag [[84, 67, 79, 78]]).foldlM
    (fun acc f =>
      match f with
      | .text _ _ txt =>
        let r := Atoi txt
        if r.2 then
          if (V1.Genres.length : Int) > r.1 then
            if r.1 < 0 then none
            else some (acc ++ [V1.Genres.getD r.1.toNat []])
          else some acc
        else
          let idxs := findAllParen txt
          if idxs ≠ [] then do
            let (acc2, old) ← genresLoop txt idxs 0 acc
            match genreProcess (txt.drop old) with
            | none => none
            | some g => some (if g ≠ [] then acc2 ++ [g] else acc2)
          else some (acc ++ [txt])
      | _ => some acc) []

end V23

namespace V24

/-- v24/v24.go `HeaderSize`. -/
def HeaderSize : Nat := 10

/-- v24/v24.go `FrameHeaderSize`. -/
def FrameHeaderSize : Nat := 10

/-- v24/v24.go `FrameType`. -/
inductive FrameType
  | TypeUnknown
  | TypeUniqueFileIdentifier
  | TypeTextInformation
  | TypeUserDefinedTextInformation
  | TypeURLLink
  | TypeInvolvedPeopleList
  | TypeMusicCDIdentifier
  | TypeEventTimingCodes
  | TypeMPEGLocationLookupTable
  | TypeSyncedTempoCodes
  | TypeUnsychronisedLyricsOrTextTranscription
  | TypeSynchronisedLyricsOrText
  | TypeComments
  | TypeRelativeVolumeAdjustment
  | TypeEqualisation
  | TypeReverb
  | TypeAttachedPicture
  | TypeGeneralEncapsulatedObject
  | TypePlayCounter
  | TypePopularimeter
  | TypeRecommendedBufferSize
  | TypeEncryptedMetaFrame
  | TypeAudioEncryption
  | TypeLinkedInformation
  | TypeTermOfUse
deriving DecidableEq, Repr

/-- v24/v24.go `frameBase`: identifier, declared size, and the eight
per-frame flag booleans decoded from the two frame-header flag bytes. -/
structure FrameBase where
  id : GoStr
  size : Nat
  flagTagAlterPreservation : Bool
  flagFileAlterPreservation : Bool
  flagReadOnly : Bool
  flagGroupingIdentity : Bool
  flagCompression : Bool
  flagEncryption : Bool
  flagUnsynchronisation : Bool
  flagDataLengthIndicator : Bool
deriving DecidableEq, Repr

/-- v24/v24.go frame values, one constructor per concrete frame struct
built by `New`. -/
inductive Frame
  | unknown (base : FrameBase) (data : GoStr)
  | text (base : FrameBase) (encoding : Encoding) (textVal : GoStr)
  | userDefinedText (base : FrameBase) (encoding : Encoding) (description value : GoStr)
  | urlLink (base : FrameBase) (url : GoStr)
  | attachedPicture (base : FrameBase) (textEncoding : Encoding) (mimeType : GoStr)
      (pictureType : Nat) (description : GoStr) (pictureData : GoStr)
  | unsyncLyrics (base : FrameBase) (textEncoding : Encoding)
      (language contentDescriptor lyricsOrText : GoStr)
  | comments (base : FrameBase) (textEncoding : Encoding)
      (language shortContentDescription theActualText : GoStr)
  | termOfUse (base : FrameBase) (textEncoding : Encoding) (language theActualText : GoStr)
  | popularimeter (base : FrameBase) (emailToUser : GoStr) (rating : Nat) (counter : Nat)
deriving DecidableEq, Repr

/-- The `frameBase` of a frame. -/
def Frame.base : Frame → FrameBase
  | .unknown b _ => b
  | .text b _ _ => b
  | .userDefinedText b _ _ _ => b
  | .urlLink b _ => b
  | .attachedPicture b _ _ _ _ _ => b
  | .unsyncLyrics b _ _ _ _ => b
  | .comments b _ _ _ _ => b
  | .termOfUse b _ _ _ => b
  | .popularimeter b _ _ _ => b

/-- v24/v24.go `Frame.ID`. -/
def Frame.idOf (f : Frame) : GoStr := f.base.id

/-- v24/v24.go `DeclaredFrames`. -/
def DeclaredFrames : List (GoStr × FrameType) := [
([65, 69, 78, 67], FrameType.TypeUnknown),  -- AENC
  ([65, 80, 73, 67], FrameType.TypeAttachedPicture),  -- APIC
  ([65, 83, 80, 73], FrameType.TypeUnknown),  -- ASPI
  ([67, 79, 77, 77], FrameType.TypeUnknown),  -- COMM
  ([67, 79, 77, 82], FrameType.TypeUnknown),  -- COMR
  ([69, 78, 67, 82], FrameType.TypeUnknown),  -- ENCR
  ([69, 81, 85, 50], FrameType.TypeUnknown),  -- EQU2
  ([69, 84, 67, 79], FrameType.TypeUnknown),  -- ETCO
  ([71, 69, 79, 66], FrameType.TypeUnknown),  -- GEOB
  ([71, 82, 73, 68], FrameType.TypeUnknown),  -- GRID
  ([76, 73, 78, 75], FrameType.TypeUnknown),  -- LINK
  ([77, 67, 68, 73], FrameType.TypeUnknown),  -- MCDI
  ([77, 76, 76, 84], FrameType.TypeUnknown),  -- MLLT
  ([79, 87, 78, 69], FrameType.TypeUnknown),  -- OWNE
  ([80, 82, 73, 86], FrameType.TypeUnknown),  -- PRIV
  ([80, 67, 78, 84], FrameType.TypeUnknown),  -- PCNT
  ([80, 79, 80, 77], FrameType.TypePopularimeter),  -- POPM
  ([80, 79, 83, 83], FrameType.TypeUnknown),  -- POSS
  ([82, 66, 85, 70], FrameType.TypeUnknown),  -- RBUF
  ([82, 86, 65, 50], FrameType.TypeUnknown),  -- RVA2
  ([82, 86, 82, 66], FrameType.TypeUnknown),  -- RVRB
  ([83, 69, 69, 75], FrameType.TypeUnknown),  -- SEEK
  ([83, 73, 71, 78], FrameType.TypeUnknown),  -- SIGN
  ([83, 89, 76, 84], FrameType.TypeUnknown),  -- SYLT
  ([83, 89, 84, 67], FrameType.TypeUnknown),  -- SYTC
  ([84, 65, 76, 66], FrameType.TypeTextInformation),  -- TALB
  ([84, 66, 80, 77], FrameType.TypeTextInformation),  -- TBPM
  ([84, 67, 79, 77], FrameType.TypeTextInformation),  -- TCOM
  ([84, 67, 79, 78], FrameType.TypeTextInformation),  -- TCON
  ([84, 67, 79, 80], FrameType.TypeTextInformation),  -- TCOP
  ([84, 68, 69, 78], FrameType.TypeTextInformation),  -- TDEN
  ([84, 68, 76, 89], FrameType.TypeTextInformation),  -- TDLY
  ([84, 68, 79, 82], FrameType.TypeTextInformation),  -- TDOR
  ([84, 68, 82, 67], FrameType.TypeTextInformation),  -- TDRC
  ([84, 68, 82, 76], FrameType.TypeTextInformation),  -- TDRL
  ([84, 68, 84, 71], FrameType.TypeTextInformation),  -- TDTG
  ([84, 69, 78, 67], FrameType.TypeTextInformation),  -- TENC
  ([84, 69, 88, 84], FrameType.TypeTextInformation),  -- TEXT
  ([84, 70, 76, 84], FrameType.TypeTextInformation),  -- TFLT
  ([84, 73, 80, 76], FrameType.TypeTextInformation),  -- TIPL
  ([84, 73, 84, 49], FrameType.TypeTextInformation),  -- TIT1
  ([84, 73, 84, 50], FrameType.TypeTextInformation),  -- TIT2
  ([84, 73, 84, 51], FrameType.TypeTextInformation),  -- TIT3
  ([84, 75, 69, 89], FrameType.TypeTextInformation),  -- TKEY
  ([84, 76, 65, 78], FrameType.TypeTextInformation),  -- TLAN
  ([84, 76, 69, 78], FrameType.TypeTextInformation),  -- TLEN
  ([84, 77, 67, 76], FrameType.TypeTextInformation),  -- TMCL
  ([84, 77, 69, 68], FrameType.TypeTextInformation),  -- TMED
  ([84, 77, 79, 79], FrameType.TypeTextInformation),  -- TMOO
  ([84, 79, 65, 76], FrameType.TypeTextInformation),  -- TOAL
  ([84, 79, 70, 78], FrameType.TypeTextInformation),  -- TOFN
  ([84, 79, 76, 89], FrameType.TypeTextInformation),  -- TOLY
  ([84, 79, 80, 69], FrameType.TypeTextInformation),  -- TOPE
  ([84, 79, 87, 78], FrameType.TypeTextInformation),  -- TOWN
  ([84, 80, 69, 49], FrameType.TypeTextInformation),  -- TPE1
  ([84, 80, 69, 50], FrameType.TypeTextInformation),  -- TPE2
  ([84, 80, 69, 51], FrameType.TypeTextInformation),  -- TPE3
  ([84, 80, 69, 52], FrameType.TypeTextInformation),  -- TPE4
  ([84, 80, 79, 83], FrameType.TypeTextInformation),  -- TPOS
  ([84, 80, 82, 79], FrameType.TypeTextInformation),  -- TPRO
  ([84, 80, 85, 66], FrameType.TypeTextInformation),  -- TPUB
  ([84, 82, 67, 75], FrameType.TypeTextInformation),  -- TRCK
  ([84, 82, 83, 78], FrameType.TypeTextInformation),  -- TRSN
  ([84, 82, 83, 79], FrameType.TypeTextInformation),  -- TRSO
  ([84, 83, 79, 65], FrameType.TypeTextInformation),  -- TSOA
  ([84, 83, 79, 80], FrameType.TypeTextInformation),  -- TSOP
  ([84, 83, 79, 84], FrameType.TypeTextInformation),  -- TSOT
  ([84, 83, 82, 67], FrameType.TypeTextInformation),  -- TSRC
  ([84, 83, 83, 69], FrameType.TypeTextInformation),  -- TSSE
  ([84, 83, 83, 84], FrameType.TypeTextInformation),  -- TSST
  ([84, 88, 88, 88], FrameType.TypeUserDefinedTextInformation),  -- TXXX
  ([85, 70, 73, 68], FrameType.TypeUnknown),  -- UFID
  ([85, 83, 69, 82], FrameType.TypeUnknown),  -- USER
  ([85, 83, 76, 84], FrameType.TypeUnknown),  -- USLT
  ([87, 67, 79, 77], FrameType.TypeUnknown),  -- WCOM
  ([87, 67, 79, 80], FrameType.TypeUnknown),  -- WCOP
  ([87, 79, 65, 70], FrameType.TypeUnknown),  -- WOAF
  ([87, 79, 65, 82], FrameType.TypeUnknown),  -- WOAR
  ([87, 79, 65, 83], FrameType.TypeUnknown),  -- WOAS
  ([87, 79, 82, 83], FrameType.TypeUnknown),  -- WORS
  ([87, 80, 65, 89], FrameType.TypeUnknown),  -- WPAY
  ([87, 80, 85, 66], FrameType.TypeUnknown),  -- WPUB
  ([87, 88, 88, 88], FrameType.TypeUnknown),  -- WXXX
  ([84, 67, 77, 80], FrameType.TypeUnknown)  -- TCMP
]

/-- Map lookup `DeclaredFrames[frameID]`. -/
def lookupDF (id : GoStr) : Option FrameType :=
  (DeclaredFrames.find? fun e => decide (e.1 = id)).map (·.2)

/-- v24/v24.go `Tag`. -/
structure Tag where
  frames : List Frame
  size : Nat
  flagUnsynchronisation : Bool
  flagExtendedHeader : Bool
  flagExperimentalIndicator : Bool
  flagFooterPresent : Bool
deriving DecidableEq, Repr

/-- The Popularimeter scan of v24/v24.go `New`: the loop bound is the
tag-level `framesSize` (not the frame size), so the body index can run
out of range (`none` models that panic). -/
def popmScan (fb : FrameBase) (body : GoStr) (framesSize : Nat) : Nat → Nat → Option Frame
  | _, 0 => none
  | i, fuel + 1 =>
    if i < framesSize then
      match goIndex body i with
      | none => none
      | some b =>
        if b = 0 then do
          let r ← goIndex body (i + 1)
          let c ← goSliceFrom body (i + 2)
          some (.popularimeter fb (body.take i) r (ByteToInt c))
        else popmScan fb body framesSize (i + 1) fuel
    else some (.popularimeter fb [] 0 0)

/-- The per-frame switch of v24/v24.go `New`; `framesSize` is passed
through because the Popularimeter case reads it; `none` models a
runtime panic. -/
def mkFrame (fb : FrameBase) (t : Option FrameType) (frameSize framesSize : Nat)
    (body : GoStr) : Option Frame :=
  match t with
  | none => some (.unknown fb body)
  | some ft =>
    match ft with
    | FrameType.TypeTextInformation => do
      let e0 ← goIndex body 0
      let enc ← Encodings.get? e0
      let tl ← goSliceFrom body 1
      some (.text fb enc (ToUTF8 tl enc))
    | FrameType.TypeUserDefinedTextInformation => do
      let e0 ← goIndex body 0
      let enc ← Encodings.get? e0
      match scanZero body enc.size frameSize 1 (frameSize + 1) with
      | none => some (.userDefinedText fb enc [] [])
      | some i => do
        let d ← goSlice body 1 i
        let v ← goSliceFrom body (i + enc.size)
        some (.userDefinedText fb enc (ToUTF8 d enc) (ToUTF8 v enc))
    | FrameType.TypeURLLink => some (.urlLink fb body)
    | FrameType.TypeAttachedPicture => do
      let e0 ← goIndex body 0
      let enc ← Encodings.get? e0
      match scanZero body 1 frameSize 1 (frameSize + 1) with
      | none => some (.attachedPicture fb enc [] 0 [] [])
      | some i => do
        let mime ← goSlice body 1 i
        let pt ← goIndex body (i + 1)
        match scanZero body enc.size frameSize (i + 2) (frameSize + 1) with
        | none => some (.attachedPicture fb enc mime pt [] [])
        | some j => do
          let d ← goSlice body (i + 2) j
          let pd ← goSliceFrom body (j + enc.size)
          some (.attachedPicture fb enc mime pt (ToUTF8 d enc) pd)
    | FrameType.TypeUnsychronisedLyricsOrTextTranscription => do
      let e0 ← goIndex body 0
      let enc ← Encodings.get? e0
      let lang ← goSlice body 1 4
      match scanZero body enc.size frameSize 4 (frameSize + 1) with
      | none => some (.unsyncLyrics fb enc lang [] [])
      | some i => do
        let d ← goSlice body 4 i
        let tx ← goSliceFrom body (i + enc.size)
        some (.unsyncLyrics fb enc lang (ToUTF8 d enc) (ToUTF8 tx enc))
    | FrameType.TypeComments => do
      let e0 ← goIndex body 0
      let enc ← Encodings.get? e0
      let lang ← goSlice body 1 4
      match scanZero body enc.size frameSize 4 (frameSize + 1) with
      | none => some (.comments fb enc lang [] [])
      | some i => do
        let d ← goSlice body 4 i
        let tx ← goSliceFrom body (i + enc.size)
        some (.comments fb enc lang (ToUTF8 d enc) (ToUTF8 tx enc))
    | FrameType.TypeTermOfUse => do
      let e0 ← goIndex body 0
      let enc ← Encodings.get? e0
      let lang ← goSlice body 1 4
      let tx ← goSliceFrom body 4
      some (.termOfUse fb enc lang (ToUTF8 tx enc))
    | FrameType.TypePopularimeter =>
      popmScan fb body framesSize 0 (framesSize + 1)
    | _ => some (.unknown fb body)

/-- The frame loop of v24/v24.go `New`; fuel as in the other loops. -/
def frameLoop (framesSize : Nat) : List Nat → Nat → List Frame → Nat → PRes (List Frame)
  | _, _, _, 0 => .err .other
  | src, t, acc, fuel + 1 =>
    if t < framesSize then
      match readBuf FrameHeaderSize src with
      | none => .err .other
      | some (fh, n, rest) =>
        let t1 := t + n
        let frameID := fh.take 4
        if ¬ matchUpperDigits frameID then
          if fh.getD 0 0 = 0 then .ok acc.reverse else .err .other
        else
          let frameSize := ByteToInt ((fh.drop 4).take 4)
          match readBuf frameSize rest with
          | none => .err .other
          | some (body, n2, rest2) =>
            let t2 := t1 + n2
            let f8 := fh.getD 8 0
            let f9 := fh.getD 9 0
            let fb : FrameBase :=
              ⟨frameID, frameSize,
                f8.land 64 = 64, f8.land 32 = 32, f8.land 16 = 16,
                f9.land 64 = 64, f9.land 8 = 8, f9.land 4 = 4,
                f9.land 2 = 2, f9.land 1 = 1⟩
            match mkFrame fb (lookupDF frameID) frameSize framesSize body with
            | none => .panicked
            | some fr => frameLoop framesSize rest2 t2 (fr :: acc) fuel
    else .ok acc.reverse

/-- v24/v24.go `New`. -/
def New (src : List Nat) : PRes Tag :=
  if src.length < HeaderSize then .err .other
  else
    let header := src.take HeaderSize
    if ¬ (header.take 3 = [73, 68, 51] ∧ header.getD 3 0 = 4) then .err .tagNotFound
    else
      let flag := header.getD 5 0
      let framesSize := ByteToInt ((header.drop 6).take 4)
      let rest := src.drop HeaderSize
      match frameLoop framesSize rest 0 [] (rest.length + 1) with
      | .ok fs =>
        .ok ⟨fs, framesSize, flag.land 128 = 128, flag.land 64 = 64,
              flag.land 32 = 32, flag.land 16 = 16⟩
      | .err e => .err e
      | .panicked => .panicked

/-- v24/v24.go `Tag.Frames` restricted to wanted identifiers. -/
def Frames (tag : Tag) (ids : List GoStr) : List Frame :=
  if ids = [] then tag.frames
  else tag.frames.flatMap fun f =>
    ids.filterMap fun i => if f.idOf = i then some f else none

/-- v24/v24.go `Tag.Title` ("TIT2"). -/
def Title (tag : Tag) : GoStr :=
  match Frames tag [[84, 73, 84, 50]] with
  | [] => []
  | f :: _ =>
    match f with
    | .text _ _ t => t
    | _ => []

/-- v24/v24.go `Tag.Album` ("TALB"). -/
def Album (tag : Tag) : GoStr :=
  match Frames tag [[84, 65, 76, 66]] with
  | [] => []
  | f :: _ =>
    match f with
    | .text _ _ t => t
    | _ => []

/-- v24/v24.go `Tag.Year` ("TDRC"). -/
def Year (tag : Tag) : GoStr :=
  match Frames tag [[84, 68, 82, 67]] with
  | [] => []
  | f :: _ =>
    match f with
    | .text _ _ t => t
    | _ => []

/-- v24/v24.go `Tag.Artists` ("TPE1"). -/
def Artists (tag : Tag) : List GoStr :=
  (Frames tag [[84, 80, 69, 49]]).flatMap fun f =>
    match f with
    | .text _ _ t => splitSlash t
    | _ => []

/-- v24/v24.go `Tag.TrackNumberAndPosition` ("TRCK"). -/
def TrackNumberAndPosition (tag : Tag) : Int × Int :=
  match Frames tag [[84, 82, 67, 75]] with
  | [] => (0, 0)
  | f :: _ =>
    match f with
    | .text _ _ tx =>
      let t := splitSlash tx
      let trk := if 0 < t.length then (Atoi (t.getD 0 [])).1 else 0
      let pos := if 1 < t.length then (Atoi (t.getD 1 [])).1 else 0
      (trk, pos)
    | _ => (0, 0)

/-- v24/v24.go `genreProcess`; `none` models the `idxs[1]` panic on a
match-free input. -/
def genreProcess (s : GoStr) : Option GoStr :=
  match findParenFrom s 0 with
  | none => none
  | some (a, e) =>
    if s.drop e ≠ [] ∧ s.getD e 0 ≠ 0 then some (s.drop e)
    else
      let r := Atoi (trimParens ((s.take e).drop a))
      if r.2 then
        if (V1.Genres.length : Int) > r.1 then
          if r.1 < 0 then none
          else some (V1.Genres.getD r.1.toNat [])
        else some []
      else some []

/-- The index-pair loop of v24/v24.go `Tag.Genres`. -/
def genresLoop (txt : GoStr) : List (Nat × Nat) → Nat → List GoStr →
    Option (List GoStr × Nat)
  | [], old, acc => some (acc, old)
  | (a, _) :: rest, old, acc =>
    if old = a then genresLoop txt rest old acc
    else
      match genreProcess ((txt.take a).drop old) with
      | none => none
      | some g => genresLoop txt rest a (if g ≠ [] then acc ++ [g] else acc)

/-- v24/v24.go `Tag.Genres` ("TCON"): plain-number pre-check, then the
parenthesised-group walk, then the verbatim fallback when the regexp
finds no group. -/
def Genres (tag : Tag) : Option (List GoStr) :=
  (Frames tag [[84, 67, 79, 78]]).foldlM
    (fun acc f =>
      match f with
      | .text _ _ txt =>
        let r := Atoi txt
        if r.2 then
          if (V1.Genres.length : Int) > r.1 then
            if r.1 < 0 then none
            else some (acc ++ [V1.Genres.getD r.1.toNat []])
          else some acc
        else
          let idxs := findAllParen txt
          if idxs ≠ [] then do
            let (acc2, old) ← genresLoop txt idxs 0 acc
            match genreProcess (txt.drop old) with
            | none => none
            | some g => some (if g ≠ [] then acc2 ++ [g] else acc2)
          else some (acc ++ [txt])
      | _ => some acc) []

end V24

namespace ID3

/-- id3.go `ID3`: one optional tag per edition. -/
structure T where
  v1 : Option V1.Tag
  v22 : Option V22.Tag
  v23 : Option V23.Tag
  v24 : Option V24.Tag
deriving DecidableEq, Repr

/-- Lift one framed-edition reader result for id3.go `New`:
`ErrTagNotFound` is downgraded to an absent edition, any other error
(or a panic) aborts the construction. -/
def liftTag : PRes α → PRes (Option α)
  | .ok t => .ok (some t)
  | .err .tagNotFound => .ok none
  | .err .other => .err .other
  | .panicked => .panicked

/-- id3.go `New`: run the v1 reader, then each framed-edition reader
against the rewound source.  The v1 reader hands back a *cleared* tag
pointer along with its `ErrTagNotFound`, and id3.go stores that pointer
unconditionally — so the v1 edition is present (with cleared fields)
even when no v1 tag exists; the framed readers return nil on
`ErrTagNotFound`, leaving their editions absent. -/
def New (src : List Nat) : PRes T :=
  let v1r := V1.New src
  if v1r.2 = some GoErr.other then .err .other
  else
    match liftTag (V22.New src) with
    | .err e => .err e
    | .panicked => .panicked
    | .ok o22 =>
      match liftTag (V23.New src) with
      | .err e => .err e
      | .panicked => .panicked
      | .ok o23 =>
        match liftTag (V24.New src) with
        | .err e => .err e
        | .panicked => .panicked
        | .ok o24 => .ok ⟨v1r.1, o22, o23, o24⟩

/-- id3.go `ID3.Title`: newest framed edition first, then older ones,
then v1; first non-empty answer wins. -/
def Title (t : T) : GoStr :=
  let a24 := match t.v24 with | some g => V24.Title g | none => []
  if a24 ≠ [] then a24 else
  let a23 := match t.v23 with | some g => V23.Title g | none => []
  if a23 ≠ [] then a23 else
  let a22 := match t.v22 with | some g => V22.Title g | none => []
  if a22 ≠ [] then a22 else
  match t.v1 with | some g => g.title | none => []

/-- id3.go `ID3.Album`. -/
def Album (t : T) : GoStr :=
  let a24 := match t.v24 with | some g => V24.Album g | none => []
  if a24 ≠ [] then a24 else
  let a23 := match t.v23 with | some g => V23.Album g | none => []
  if a23 ≠ [] then a23 else
  let a22 := match t.v22 with | some g => V22.Album g | none => []
  if a22 ≠ [] then a22 else
  match t.v1 with | some g => g.album | none => []

/-- id3.go `ID3.Year`. -/
def Year (t : T) : GoStr :=
  let a24 := match t.v24 with | some g => V24.Year g | none => []
  if a24 ≠ [] then a24 else
  let a23 := match t.v23 with | some g => V23.Year g | none => []
  if a23 ≠ [] then a23 else
  let a22 := match t.v22 with | some g => V22.Year g | none => []
  if a22 ≠ [] then a22 else
  match t.v1 with | some g => g.year | none => []

/-- id3.go `ID3.Artists`: the v1 fallback wraps a non-empty artist in a
one-element list. -/
def Artists (t : T) : List GoStr :=
  let a24 := match t.v24 with | some g => V24.Artists g | none => []
  if a24.length > 0 then a24 else
  let a23 := match t.v23 with | some g => V23.Artists g | none => []
  if a23.length > 0 then a23 else
  let a22 := match t.v22 with | some g => V22.Artists g | none => []
  if a22.length > 0 then a22 else
  match t.v1 with
  | some g => if g.artist ≠ [] then [g.artist] else []
  | none => []

/-- id3.go `ID3.TrackNumberAndPosition`: first framed edition whose
track number is non-zero.  The v1 branch of the source can only ever
yield `(0, 0)`: it returns early just when `strconv.Atoi` fails (and
then with the zero value), while a successful parse falls through to
the final `return 0, 0` — so no v1 album track is ever surfaced.  (The
source as given also type-mismatches here: `Tag.AlbumTrack` of v1/v1.go
returns an int that id3.go compares against a string; under either
reading the branch contributes nothing.) -/
def TrackNumberAndPosition (t : T) : Int × Int :=
  let p24 := match t.v24 with | some g => V24.TrackNumberAndPosition g | none => (0, 0)
  if p24.1 ≠ 0 then p24 else
  let p23 := match t.v23 with | some g => V23.TrackNumberAndPosition g | none => (0, 0)
  if p23.1 ≠ 0 then p23 else
  let p22 := match t.v22 with | some g => V22.TrackNumberAndPosition g | none => (0, 0)
  if p22.1 ≠ 0 then p22 else
  (0, 0)

/-- id3.go `ID3.Genres`: the framed-edition genre accessors may panic
(`none`); a panic in an earlier edition aborts the whole call, exactly
as in Go. -/
def Genres (t : T) : Option (List GoStr) :=
  (match t.v24 with | some g => V24.Genres g | none => some []).bind fun g24 =>
  if g24.length > 0 then some g24 else
  (match t.v23 with | some g => V23.Genres g | none => some []).bind fun g23 =>
  if g23.length > 0 then some g23 else
  (match t.v22 with | some g => V22.Genres g | none => some []).bind fun g22 =>
  if g22.length > 0 then some g22 else
  match t.v1 with
  | some g => if V1.Genre g ≠ [] then some [V1.Genre g] else some []
  | none => some []

end ID3

/-! Spec-side definitions (translated from the specification's words,
for comparison against the embedded code) and the concrete inputs used
by the claim theorems below. -/

/-- Spec: scan a list of per-edition string answers, newest first, and
return the first non-empty one (or the empty string). -/
def firstNonEmptyStr (l : List GoStr) : GoStr :=
  (l.find? fun s => decide (s ≠ [])).getD []

/-- Spec: scan a list of per-edition list answers, newest first, and
return the first non-empty one (or the empty list). -/
def firstNonEmptyList (l : List (List GoStr)) : List GoStr :=
  (l.find? fun s => decide (s ≠ [])).getD []

/-- Spec: scan a list of per-edition (track, position) answers, newest
first, and return the first whose track is non-zero (or (0, 0)). -/
def firstNonZeroTrack (l : List (Int × Int)) : Int × Int :=
  (l.find? fun p => decide (p.1 ≠ 0)).getD (0, 0)

/-- The usual base-10 rendering of a natural number as ASCII digit
bytes (most significant first). -/
def natToChars (n : Nat) : List Nat :=
  if h : n < 10 then [48 + n]
  else natToChars (n / 10) ++ [48 + n % 10]
decreasing_by exact Nat.div_lt_self (by omega) (by omega)

/-- A v1.1 trailer whose album-track byte is 5 ("TAG", empty fields,
track 5, genre index 255). -/
def v11TrackSrc : List Nat := [84, 65, 71] ++ List.replicate 122 0 ++ [0, 5, 255]

/-- A v2.4 tag holding a single TIT2 frame whose declared body length
is zero. -/
def zeroLenTextSrc : List Nat :=
  [73, 68, 51, 4, 0, 0, 0, 0, 0, 10] ++ [84, 73, 84, 50, 0, 0, 0, 0, 0, 0]

/-- A v2.4 tag holding a single TIT2 frame with encoding byte 1 and
body bytes FF FE 41 00 42 00. -/
def utf16TitleSrc : List Nat :=
  [73, 68, 51, 4, 0, 0, 0, 0, 0, 17] ++ [84, 73, 84, 50, 0, 0, 0, 7, 0, 0] ++
  [1, 255, 254, 65, 0, 66, 0]

/-- The byte string "Miscellaneous(31)Ska". -/
def misc31Ska : GoStr :=
  [77, 105, 115, 99, 101, 108, 108, 97, 110, 101, 111, 117, 115, 40, 51, 49, 41, 83, 107, 97]

/-- A v2.2 tag holding a single TCO frame with text
"Miscellaneous(31)Ska". -/
def misc31SkaSrc : List Nat :=
  [73, 68, 51, 2, 0, 0, 0, 0, 0, 27] ++ [84, 67, 79, 0, 0, 21] ++ ([0] ++ misc31Ska)

/-- The comments body of the specification's test vector:
00 65 6E 67 00 68 69 00 62 79 65. -/
def commentsBody : GoStr := [0, 101, 110, 103, 0, 104, 105, 0, 98, 121, 101]

/-- A v2.2 tag holding a single COM frame with `commentsBody`. -/
def commentsSrc22 : List Nat :=
  [73, 68, 51, 2, 0, 0, 0, 0, 0, 17] ++ [67, 79, 77, 0, 0, 11] ++ commentsBody

/-- A v2.3 tag holding a single COMM frame with `commentsBody`. -/
def commentsSrc23 : List Nat :=
  [73, 68, 51, 3, 0, 0, 0, 0, 0, 21] ++ [67, 79, 77, 77, 0, 0, 0, 11, 0, 0] ++ commentsBody

/-- A v2.4 tag holding a single TXXX frame whose body `00 41 42` has no
terminator byte after the encoding byte. -/
def noTermTxxxSrc : List Nat :=
  [73, 68, 51, 4, 0, 0, 0, 0, 0, 13] ++ [84, 88, 88, 88, 0, 0, 0, 3, 0, 0] ++ [0, 65, 66]

/-- A v2.4 header whose size bytes 81 82 83 84 all have the top bit
set (so a synch-safe reading would differ), followed by padding. -/
def bigSizeSrc : List Nat :=
  [73, 68, 51, 4, 0, 0, 129, 130, 131, 132] ++ List.replicate 10 0

/-- A v2.2 tag with one TAL frame whose 3-byte size field 00 00 80
declares a 128-byte body. -/
def frameSize128Src : List Nat :=
  [73, 68, 51, 2, 0, 0, 0, 0, 0, 134] ++ [84, 65, 76, 0, 0, 128] ++ List.replicate 128 0

/-- A v2.4 tag with one TRCK frame of text "3/12". -/
def track312Src : List Nat :=
  [73, 68, 51, 4, 0, 0, 0, 0, 0, 15] ++ [84, 82, 67, 75, 0, 0, 0, 5, 0, 0] ++
  [0, 51, 47, 49, 50]

/-- A v2.4 tag with one TRCK frame of text "3". -/
def track3Src : List Nat :=
  [73, 68, 51, 4, 0, 0, 0, 0, 0, 12] ++ [84, 82, 67, 75, 0, 0, 0, 2, 0, 0] ++ [0, 51]

/-- A v2.4 tag with one TCON frame of text "(13)Pop". -/
def pop13Src : List Nat :=
  [73, 68, 51, 4, 0, 0, 0, 0, 0, 18] ++ [84, 67, 79, 78, 0, 0, 0, 8, 0, 0] ++
  [0, 40, 49, 51, 41, 80, 111, 112]

/-- The frame-flag part of a v2.4 `frameBase` whose two flag bytes are
zero. -/
def fb24 (id : GoStr) (size : Nat) : V24.FrameBase :=
  ⟨id, size, false, false, false, false, false, false, false, false⟩

/-- The v2.2 tag parsed from `misc31SkaSrc`. -/
def misc31SkaTag : V22.Tag :=
  ⟨0, false, false, [.text ⟨[84, 67, 79], 21⟩ ⟨.iso88591, 1⟩ misc31Ska]⟩

/-- The v2.2 tag parsed from `commentsSrc22`. -/
def commentsTag22 : V22.Tag :=
  ⟨0, false, false,
    [.comments ⟨[67, 79, 77], 11⟩ ⟨.iso88591, 1⟩ [101, 110, 103] []
      [104, 105, 0, 98, 121, 101]]⟩

/-- The v2.3 tag parsed from `commentsSrc23`. -/
def commentsTag23 : V23.Tag :=
  ⟨21, false, false, false,
    [.comments ⟨[67, 79, 77, 77], 11⟩ ⟨.iso88591, 1⟩ [101, 110, 103] []
      [104, 105, 0, 98, 121, 101]]⟩

/-- The v2.4 tag parsed from `noTermTxxxSrc`. -/
def noTermTxxxTag : V24.Tag :=
  ⟨[.userDefinedText (fb24 [84, 88, 88, 88] 3) ⟨.iso88591, 1⟩ [] []],
    13, false, false, false, false⟩

/-- The v2.4 tag parsed from `track312Src`. -/
def track312Tag : V24.Tag :=
  ⟨[.text (fb24 [84, 82, 67, 75] 5) ⟨.iso88591, 1⟩ [51, 47, 49, 50]],
    15, false, false, false, false⟩

/-- The v2.4 tag parsed from `track3Src`. -/
def track3Tag : V24.Tag :=
  ⟨[.text (fb24 [84, 82, 67, 75] 2) ⟨.iso88591, 1⟩ [51]],
    12, false, false, false, false⟩

/-- The v2.4 tag parsed from `utf16TitleSrc`. -/
def utf16TitleTag : V24.Tag :=
  ⟨[.text (fb24 [84, 73, 84, 50] 7) ⟨.utf16, 2⟩ [239, 187, 191, 65, 66]],
    17, false, false, false, false⟩

/-- The v2.4 tag parsed from `pop13Src`. -/
def pop13Tag : V24.Tag :=
  ⟨[.text (fb24 [84, 67, 79, 78] 8) ⟨.iso88591, 1⟩ [40, 49, 51, 41, 80, 111, 112]],
    18, false, false, false, false⟩

/-- The unified tag built from a byte source carrying no edition's tag:
only the cleared v1 tag is present. -/
def clearedUnified : ID3.T := ⟨some V1.clearedTag, none, none, none⟩

/-- The v1.1 tag parsed from `v11TrackSrc`. -/
def v11Track5Tag : V1.Tag := ⟨.v11, [], [], [], [], [], 5, 255⟩

/-- The per-edition string field of an optional tag, empty when the
edition is absent (spec-side selector for stating the scan order). -/
def fieldOf {α : Type} (o : Option α) (f : α → GoStr) : GoStr :=
  match o with
  | some g => f g
  | none => []

/-- The per-edition list field of an optional tag. -/
def listFieldOf {α : Type} (o : Option α) (f : α → List GoStr) : List GoStr :=
  match o with
  | some g => f g
  | none => []

/-- The per-edition (track, position) field of an optional tag. -/
def pairFieldOf {α : Type} (o : Option α) (f : α → Int × Int) : Int × Int :=
  match o with
  | some g => f g
  | none => (0, 0)

/-- The per-edition genre answer of an optional tag (`some []` when the
edition is absent, a panic stays `none`). -/
def genresFieldOf {α : Type} (o : Option α) (f : α → Option (List GoStr)) :
    Option (List GoStr) :=
  match o with
  | some g => f g
  | none => some []

/-- The v1 level of the unified artists scan: a non-empty v1 artist as
a one-element list. -/
def v1ArtistList (o : Option V1.Tag) : List GoStr :=
  match o with
  | some g => if g.artist ≠ [] then [g.artist] else []
  | none => []

/-- The v1 level of the unified genre scan: a non-empty v1 genre as a
one-element list. -/
def v1GenreList (o : Option V1.Tag) : List GoStr :=
  match o with
  | some g => if V1.Genre g ≠ [] then [V1.Genre g] else []
  | none => []

/-- A unified tag carrying both a v2.2 tag titled "old" and a v2.4 tag
titled "new". -/
def bothEditionsTag : ID3.T :=
  ⟨none,
    some ⟨0, false, false, [.text ⟨[84, 84, 50], 4⟩ ⟨.iso88591, 1⟩ [111, 108, 100]]⟩,
    none,
    some ⟨[.text (fb24 [84, 73, 84, 50] 4) ⟨.iso88591, 1⟩ [110, 101, 119]],
      0, false, false, false, false⟩⟩

/-- A v2.4 tag carrying the genre text "(13)Pop", used to instantiate
the unified genre scan. -/
def pop13Unified : ID3.T := ⟨none, none, none, some pop13Tag⟩

/-- The unified tag parsed from `v11TrackSrc`. -/
def v11TrackUnified : ID3.T := ⟨some v11Track5Tag, none, none, none⟩

/-! Helper lemmas. -/

theorem natToChars_digits (n : Nat) : ∀ c ∈ natToChars n, 48 ≤ c ∧ c ≤ 57 := by
  induction n using Nat.strong_induction_on with
  | _ n ih =>
    rw [natToChars]
    split
    · intro c hc
      simp at hc
      omega
    · intro c hc
      rcases List.mem_append.mp hc with h | h
      · exact ih (n / 10) (Nat.div_lt_self (by omega) (by omega)) c h
      · simp at h
        omega

theorem natToChars_ne_nil (n : Nat) : natToChars n ≠ [] := by
  rw [natToChars]
  split
  · simp
  · simp

theorem digitsVal_append1 (l : List Nat) (d : Nat) :
    digitsVal (l ++ [d]) = 10 * digitsVal l + (d - 48) := by
  simp [digitsVal, List.foldl_append]
  omega

theorem natToChars_val (n : Nat) : digitsVal (natToChars n) = n := by
  induction n using Nat.strong_induction_on with
  | _ n ih =>
    rw [natToChars]
    split
    · simp only [digitsVal, List.foldl]
      omega
    · rw [digitsVal_append1, ih (n / 10) (Nat.div_lt_self (by omega) (by omega))]
      omega

theorem Atoi_natToChars (n : Nat) : Atoi (natToChars n) = ((n : Int), true) := by
  rcases h : natToChars n with _ | ⟨c, rest⟩
  · exact absurd h (natToChars_ne_nil n)
  · have hc : 48 ≤ c ∧ c ≤ 57 := natToChars_digits n c (h ▸ List.mem_cons_self c rest)
    have hall : (natToChars n).all isDigit = true := by
      rw [List.all_eq_true]
      intro x hx
      have := natToChars_digits n x hx
      simp [isDigit]
      omega
    rw [h] at hall
    have hval : digitsVal (c :: rest) = n := h ▸ natToChars_val n
    simp only [Atoi]
    rw [if_neg (by omega), if_neg (by omega), if_pos hall, hval]

theorem splitSlash_no47 (l : GoStr) (h : ∀ b ∈ l, b ≠ 47) : splitSlash l = [l] := by
  induction l with
  | nil => rfl
  | cons a l ih =>
    have ha : a ≠ 47 := h a (List.mem_cons_self a l)
    have hl := ih fun b hb => h b (List.mem_cons_of_mem a hb)
    simp [splitSlash, ha, hl]

theorem splitSlash_sep (A B : GoStr) (h : ∀ b ∈ A, b ≠ 47) :
    splitSlash (A ++ 47 :: B) = A :: splitSlash B := by
  induction A with
  | nil => simp [splitSlash]
  | cons a A ih =>
    have ha : a ≠ 47 := h a (List.mem_cons_self a A)
    have hA := ih fun b hb => h b (List.mem_cons_of_mem a hb)
    simp only [List.cons_append, splitSlash, if_neg ha]
    rw [show A.append (47 :: B) = A ++ 47 :: B from rfl, hA]

theorem natToChars_no47 (n : Nat) : ∀ b ∈ natToChars n, b ≠ 47 := by
  intro b hb
  have := natToChars_digits n b hb
  omega

theorem v24_track_pair (a b : Nat) :
    V24.TrackNumberAndPosition
      ⟨[.text (fb24 [84, 82, 67, 75] 0) ⟨.iso88591, 1⟩ (natToChars a ++ 47 :: natToChars b)],
        0, false, false, false, false⟩ = ((a : Int), (b : Int)) := by
  have hsplit : splitSlash (natToChars a ++ 47 :: natToChars b) =
      [natToChars a, natToChars b] := by
    rw [splitSlash_sep _ _ (natToChars_no47 a), splitSlash_no47 _ (natToChars_no47 b)]
  simp [V24.TrackNumberAndPosition, V24.Frames, V24.Frame.idOf, V24.Frame.base, fb24,
    hsplit, Atoi_natToChars]

theorem v24_track_single (a : Nat) :
    V24.TrackNumberAndPosition
      ⟨[.text (fb24 [84, 82, 67, 75] 0) ⟨.iso88591, 1⟩ (natToChars a)],
        0, false, false, false, false⟩ = ((a : Int), 0) := by
  have hsplit : splitSlash (natToChars a) = [natToChars a] :=
    splitSlash_no47 _ (natToChars_no47 a)
  simp [V24.TrackNumberAndPosition, V24.Frames, V24.Frame.idOf, V24.Frame.base, fb24,
    hsplit, Atoi_natToChars]

theorem v23_track_pair (a b : Nat) :
    V23.TrackNumberAndPosition
      ⟨0, false, false, false,
        [.text ⟨[84, 82, 67, 75], 0⟩ ⟨.iso88591, 1⟩ (natToChars a ++ 47 :: natToChars b)]⟩ =
      ((a : Int), (b : Int)) := by
  have hsplit : splitSlash (natToChars a ++ 47 :: natToChars b) =
      [natToChars a, natToChars b] := by
    rw [splitSlash_sep _ _ (natToChars_no47 a), splitSlash_no47 _ (natToChars_no47 b)]
  simp [V23.TrackNumberAndPosition, V23.Frames, V23.Frame.idOf, V23.Frame.base,
    hsplit, Atoi_natToChars]

theorem v23_track_single (a : Nat) :
    V23.TrackNumberAndPosition
      ⟨0, false, false, false,
        [.text ⟨[84, 82, 67, 75], 0⟩ ⟨.iso88591, 1⟩ (natToChars a)]⟩ = ((a : Int), 0) := by
  have hsplit : splitSlash (natToChars a) = [natToChars a] :=
    splitSlash_no47 _ (natToChars_no47 a)
  simp [V23.TrackNumberAndPosition, V23.Frames, V23.Frame.idOf, V23.Frame.base,
    hsplit, Atoi_natToChars]

theorem scanZero_none_of_nonzero (body : GoStr) (step limit : Nat)
    (h : ∀ i, 1 ≤ i → i < limit → (i - 1) % step = 0 → body.getD i 0 ≠ 0) :
    ∀ fuel i, 1 ≤ i → (i - 1) % step = 0 → scanZero body step limit i fuel = none := by
  intro fuel
  induction fuel with
  | zero => intro i _ _; rfl
  | succ fuel ih =>
    intro i hi hmod
    rw [scanZero]
    split
    · rw [if_neg (h i hi (by assumption) hmod)]
      exact ih (i + step) (by omega) (by
        have : i + step - 1 = (i - 1) + step := by omega
        rw [this, Nat.add_mod_right, hmod])
    · rfl

theorem v24_txxx_no_term (fb : V24.FrameBase) (frameSize framesSize : Nat) (body : GoStr)
    (e0 : Nat) (enc : Encoding)
    (h0 : goIndex body 0 = some e0) (henc : Encodings.get? e0 = some enc)
    (hterm : ∀ i, 1 ≤ i → i < frameSize → (i - 1) % enc.size = 0 → body.getD i 0 ≠ 0) :
    V24.mkFrame fb (some V24.FrameType.TypeUserDefinedTextInformation) frameSize framesSize
      body = some (.userDefinedText fb enc [] []) := by
  simp only [V24.mkFrame, h0, henc, Option.bind_eq_bind, Option.some_bind]
  rw [scanZero_none_of_nonzero body enc.size frameSize hterm (frameSize + 1) 1 le_rfl
    (by simp)]

theorem v23_txxx_no_term (fb : V23.FrameBase) (frameSize : Nat) (body : GoStr)
    (e0 : Nat) (enc : Encoding)
    (h0 : goIndex body 0 = some e0) (henc : Encodings.get? e0 = some enc)
    (hterm : ∀ i, 1 ≤ i → i < frameSize → (i - 1) % enc.size = 0 → body.getD i 0 ≠ 0) :
    V23.mkFrame fb (some V23.FrameType.TypeUserDefinedTextInformation) frameSize body =
      some (.userDefinedText fb enc [] []) := by
  simp only [V23.mkFrame, h0, henc, Option.bind_eq_bind, Option.some_bind]
  rw [scanZero_none_of_nonzero body enc.size frameSize hterm (frameSize + 1) 1 le_rfl
    (by simp)]

theorem flatMap_guard_first {α : Type} (q : α → GoStr) (id : GoStr) (pre post : List α)
    (u : α) (hpre : ∀ f ∈ pre, q f ≠ id) (hu : q u = id) :
    ((pre ++ u :: post).flatMap fun f => if q f = id then [f] else []) =
      u :: (post.flatMap fun f => if q f = id then [f] else []) := by
  induction pre with
  | nil => simp [hu]
  | cons g pre ih =>
    have hg : q g ≠ id := hpre g (List.mem_cons_self g pre)
    have hrec := ih fun f hf => hpre f (List.mem_cons_of_mem g hf)
    show (if q g = id then [g] else []) ++
        ((pre ++ u :: post).flatMap fun f => if q f = id then [f] else []) = _
    rw [if_neg hg, List.nil_append, hrec]

theorem v24_frames_inner (id : GoStr) :
    (fun f : V24.Frame => [id].filterMap fun i => if f.idOf = i then some f else none) =
      fun f : V24.Frame => if f.idOf = id then [f] else [] := by
  funext f
  by_cases h : f.idOf = id <;> simp [h, List.filterMap]

theorem v24_title_first_only (pre post : List V24.Frame) (u : V24.Frame)
    (s : Nat) (f1 f2 f3 f4 : Bool)
    (hpre : ∀ f ∈ pre, V24.Frame.idOf f ≠ [84, 73, 84, 50])
    (hu : u.idOf = [84, 73, 84, 50])
    (hnt : ∀ b e tx, u ≠ V24.Frame.text b e tx) :
    V24.Title ⟨pre ++ u :: post, s, f1, f2, f3, f4⟩ = [] := by
  simp only [V24.Title, V24.Frames,
    if_neg (by simp : ¬([[84, 73, 84, 50]] : List GoStr) = []), v24_frames_inner]
  rw [flatMap_guard_first V24.Frame.idOf [84, 73, 84, 50] pre post u hpre hu]
  cases u with
  | text b e tx => exact absurd rfl (hnt b e tx)
  | _ => rfl

theorem v24_album_first_only (pre post : List V24.Frame) (u : V24.Frame)
    (s : Nat) (f1 f2 f3 f4 : Bool)
    (hpre : ∀ f ∈ pre, V24.Frame.idOf f ≠ [84, 65, 76, 66])
    (hu : u.idOf = [84, 65, 76, 66])
    (hnt : ∀ b e tx, u ≠ V24.Frame.text b e tx) :
    V24.Album ⟨pre ++ u :: post, s, f1, f2, f3, f4⟩ = [] := by
  simp only [V24.Album, V24.Frames,
    if_neg (by simp : ¬([[84, 65, 76, 66]] : List GoStr) = []), v24_frames_inner]
  rw [flatMap_guard_first V24.Frame.idOf [84, 65, 76, 66] pre post u hpre hu]
  cases u with
  | text b e tx => exact absurd rfl (hnt b e tx)
  | _ => rfl

theorem v24_year_first_only (pre post : List V24.Frame) (u : V24.Frame)
    (s : Nat) (f1 f2 f3 f4 : Bool)
    (hpre : ∀ f ∈ pre, V24.Frame.idOf f ≠ [84, 68, 82, 67])
    (hu : u.idOf = [84, 68, 82, 67])
    (hnt : ∀ b e tx, u ≠ V24.Frame.text b e tx) :
    V24.Year ⟨pre ++ u :: post, s, f1, f2, f3, f4⟩ = [] := by
  simp only [V24.Year, V24.Frames,
    if_neg (by simp : ¬([[84, 68, 82, 67]] : List GoStr) = []), v24_frames_inner]
  rw [flatMap_guard_first V24.Frame.idOf [84, 68, 82, 67] pre post u hpre hu]
  cases u with
  | text b e tx => exact absurd rfl (hnt b e tx)
  | _ => rfl

theorem chain4Str (a b c d : GoStr) :
    (if a ≠ [] then a
     else if b ≠ [] then b
     else if c ≠ [] then c
     else d) = firstNonEmptyStr [a, b, c, d] := by
  by_cases ha : a = [] <;> by_cases hb : b = [] <;> by_cases hc : c = [] <;>
    by_cases hd : d = [] <;> simp [firstNonEmptyStr, List.find?, ha, hb, hc, hd]

theorem chain4List (a b c d : List GoStr) :
    (if a.length > 0 then a
     else if b.length > 0 then b
     else if c.length > 0 then c
     else d) = firstNonEmptyList [a, b, c, d] := by
  by_cases ha : a = [] <;> by_cases hb : b = [] <;> by_cases hc : c = [] <;>
    by_cases hd : d = [] <;>
    simp [firstNonEmptyList, List.find?, ha, hb, hc, hd, List.length_pos]

theorem chain3Track (p q r : Int × Int) :
    (if p.1 ≠ 0 then p
     else if q.1 ≠ 0 then q
     else if r.1 ≠ 0 then r
     else (0, 0)) = firstNonZeroTrack [p, q, r] := by
  by_cases hp : p.1 = 0 <;> by_cases hq : q.1 = 0 <;> by_cases hr : r.1 = 0 <;>
    simp [firstNonZeroTrack, List.find?, hp, hq, hr]

theorem chainGen (m1 m2 m3 m4 : Option (List GoStr)) (g1 g2 g3 g4 : List GoStr)
    (h1 : m1 = some g1) (h2 : m2 = some g2) (h3 : m3 = some g3) (h4 : m4 = some g4) :
    (m1.bind fun a => if a.length > 0 then some a else
     m2.bind fun b => if b.length > 0 then some b else
     m3.bind fun c => if c.length > 0 then some c else m4)
    = some (firstNonEmptyList [g1, g2, g3, g4]) := by
  subst h1 h2 h3 h4
  by_cases e1 : g1 = [] <;> by_cases e2 : g2 = [] <;> by_cases e3 : g3 = [] <;>
    by_cases e4 : g4 = [] <;>
    simp [firstNonEmptyList, List.find?, e1, e2, e3, e4, List.length_pos]

theorem v1GenresTail (o : Option V1.Tag) :
    (match o with
      | some g => if V1.Genre g ≠ [] then some [V1.Genre g] else some []
      | none => some ([] : List GoStr)) = some (v1GenreList o) := by
  cases o with
  | none => rfl
  | some g =>
    simp only [v1GenreList]
    split <;> rfl

theorem id3Title_spec (t : ID3.T) :
    ID3.Title t = firstNonEmptyStr [fieldOf t.v24 V24.Title, fieldOf t.v23 V23.Title,
      fieldOf t.v22 V22.Title, fieldOf t.v1 V1.Tag.title] := by
  rcases t with ⟨o1, o2, o3, o4⟩
  cases o4 <;> cases o3 <;> cases o2 <;> cases o1 <;>
    simp only [ID3.Title, fieldOf] <;> exact chain4Str _ _ _ _

theorem id3Album_spec (t : ID3.T) :
    ID3.Album t = firstNonEmptyStr [fieldOf t.v24 V24.Album, fieldOf t.v23 V23.Album,
      fieldOf t.v22 V22.Album, fieldOf t.v1 V1.Tag.album] := by
  rcases t with ⟨o1, o2, o3, o4⟩
  cases o4 <;> cases o3 <;> cases o2 <;> cases o1 <;>
    simp only [ID3.Album, fieldOf] <;> exact chain4Str _ _ _ _

theorem id3Year_spec (t : ID3.T) :
    ID3.Year t = firstNonEmptyStr [fieldOf t.v24 V24.Year, fieldOf t.v23 V23.Year,
      fieldOf t.v22 V22.Year, fieldOf t.v1 V1.Tag.year] := by
  rcases t with ⟨o1, o2, o3, o4⟩
  cases o4 <;> cases o3 <;> cases o2 <;> cases o1 <;>
    simp only [ID3.Year, fieldOf] <;> exact chain4Str _ _ _ _

theorem id3Artists_spec (t : ID3.T) :
    ID3.Artists t = firstNonEmptyList [listFieldOf t.v24 V24.Artists,
      listFieldOf t.v23 V23.Artists, listFieldOf t.v22 V22.Artists, v1ArtistList t.v1] := by
  rcases t with ⟨o1, o2, o3, o4⟩
  cases o4 <;> cases o3 <;> cases o2 <;> cases o1 <;>
    simp only [ID3.Artists, listFieldOf, v1ArtistList] <;> exact chain4List _ _ _ _

theorem id3Track_spec (t : ID3.T) :
    ID3.TrackNumberAndPosition t = firstNonZeroTrack
      [pairFieldOf t.v24 V24.TrackNumberAndPosition,
       pairFieldOf t.v23 V23.TrackNumberAndPosition,
       pairFieldOf t.v22 V22.TrackNumberAndPosition] := by
  rcases t with ⟨o1, o2, o3, o4⟩
  cases o4 <;> cases o3 <;> cases o2 <;>
    simp only [ID3.TrackNumberAndPosition, pairFieldOf] <;>
    split_ifs <;>
    simp_all [firstNonZeroTrack, List.find?]

theorem id3Genres_spec (t : ID3.T) (g24 g23 g22 : List GoStr)
    (h24 : genresFieldOf t.v24 V24.Genres = some g24)
    (h23 : genresFieldOf t.v23 V23.Genres = some g23)
    (h22 : genresFieldOf t.v22 V22.Genres = some g22) :
    ID3.Genres t = some (firstNonEmptyList [g24, g23, g22, v1GenreList t.v1]) := by
  rcases t with ⟨o1, o2, o3, o4⟩
  cases o4 <;> cases o3 <;> cases o2 <;>
    simp only [genresFieldOf] at h24 h23 h22 <;>
    exact chainGen _ _ _ _ _ _ _ _ h24 h23 h22 (v1GenresTail o1)

/-! Claim theorems. -/

/-- Claim C1, amended.  The unified accessors Title, Album, Year,
Artists and Genres scan the editions from newest to oldest (v2.4, v2.3,
v2.2, v1) and return the first non-empty result; TrackNumberAndPosition
scans only the three framed editions for a non-zero track number — its
v1 branch can never surface a value, because the source returns early
only when the string-to-int conversion fails (yielding the zero value)
and falls through to `return 0, 0` on success.  In particular, a
Unified Tag carrying both an oldest-edition and a newest-edition framed
tag with different non-empty titles reports the newest edition's
title. -/
theorem c1_unified_scan_order :
    (∀ t : ID3.T,
      ID3.Title t = firstNonEmptyStr [fieldOf t.v24 V24.Title, fieldOf t.v23 V23.Title,
        fieldOf t.v22 V22.Title, fieldOf t.v1 V1.Tag.title] ∧
      ID3.Album t = firstNonEmptyStr [fieldOf t.v24 V24.Album, fieldOf t.v23 V23.Album,
        fieldOf t.v22 V22.Album, fieldOf t.v1 V1.Tag.album] ∧
      ID3.Year t = firstNonEmptyStr [fieldOf t.v24 V24.Year, fieldOf t.v23 V23.Year,
        fieldOf t.v22 V22.Year, fieldOf t.v1 V1.Tag.year] ∧
      ID3.Artists t = firstNonEmptyList [listFieldOf t.v24 V24.Artists,
        listFieldOf t.v23 V23.Artists, listFieldOf t.v22 V22.Artists, v1ArtistList t.v1] ∧
      ID3.TrackNumberAndPosition t = firstNonZeroTrack
        [pairFieldOf t.v24 V24.TrackNumberAndPosition,
         pairFieldOf t.v23 V23.TrackNumberAndPosition,
         pairFieldOf t.v22 V22.TrackNumberAndPosition]) ∧
    (∀ (t : ID3.T) (g24 g23 g22 : List GoStr),
      genresFieldOf t.v24 V24.Genres = some g24 →
      genresFieldOf t.v23 V23.Genres = some g23 →
      genresFieldOf t.v22 V22.Genres = some g22 →
      ID3.Genres t = some (firstNonEmptyList [g24, g23, g22, v1GenreList t.v1])) ∧
    (ID3.Title bothEditionsTag = [110, 101, 119] ∧
     fieldOf bothEditionsTag.v22 V22.Title = [111, 108, 100] ∧
     ([110, 101, 119] : GoStr) ≠ [111, 108, 100] ∧
     ([110, 101, 119] : GoStr) ≠ [] ∧ ([111, 108, 100] : GoStr) ≠ []) :=
  ⟨fun t => ⟨id3Title_spec t, id3Album_spec t, id3Year_spec t, id3Artists_spec t,
      id3Track_spec t⟩,
   fun t g24 g23 g22 h24 h23 h22 => id3Genres_spec t g24 g23 g22 h24 h23 h22,
   by decide, by decide, by decide, by decide, by decide⟩

/-- Witness for C1: the genre-scan conjunct instantiated at a unified
tag whose only edition is a v2.4 tag with content type "(13)Pop" (its
genre list resolves to ["Pop"]), plus the newest-title instance. -/
theorem c1_unified_scan_order_witness :
    ID3.Genres pop13Unified =
      some (firstNonEmptyList [[[80, 111, 112]], [], [], v1GenreList pop13Unified.v1]) ∧
    ID3.Title bothEditionsTag = [110, 101, 119] :=
  ⟨c1_unified_scan_order.2.1 pop13Unified [[80, 111, 112]] [] []
      (by decide) (by decide) (by decide),
   c1_unified_scan_order.2.2.1⟩

/-- Counterexample to C1 as stated: a byte source carrying only a v1.1
trailer with album track 5 parses into a unified tag whose v1 edition
holds the non-empty track number 5, yet TrackNumberAndPosition returns
the empty value (0, 0) — the scan does not return the first non-empty
result of the v1 edition. -/
theorem c1_counterexample :
    ID3.New v11TrackSrc = PRes.ok v11TrackUnified ∧
    v11Track5Tag.albumTrack = 5 ∧
    ID3.TrackNumberAndPosition v11TrackUnified = (0, 0) :=
  ⟨by decide, by decide, by decide⟩

/-- Claim C2, amended.  For a byte source in which every edition
reports its tag-absent condition, Title, Album and Year return the
empty string, Artists returns the empty list and
TrackNumberAndPosition returns (0, 0) — but Genres returns the
one-element list ["Unknown"], because the v1 reader hands back a
non-nil cleared tag (genre index 255) along with `ErrTagNotFound`, and
the cleared tag's out-of-range genre index resolves to "Unknown". -/
theorem c2_absent_editions_accessors (src : List Nat)
    (h1 : V1.New src = (some V1.clearedTag, some GoErr.tagNotFound))
    (h22 : V22.New src = .err .tagNotFound)
    (h23 : V23.New src = .err .tagNotFound)
    (h24 : V24.New src = .err .tagNotFound) :
    ID3.New src = .ok clearedUnified ∧
    ID3.Title clearedUnified = [] ∧
    ID3.Album clearedUnified = [] ∧
    ID3.Year clearedUnified = [] ∧
    ID3.Artists clearedUnified = [] ∧
    ID3.TrackNumberAndPosition clearedUnified = (0, 0) ∧
    ID3.Genres clearedUnified = some [V1.unknownStr] := by
  refine ⟨?_, by decide, by decide, by decide, by decide, by decide, by decide⟩
  simp [ID3.New, h1, h22, h23, h24, ID3.liftTag, clearedUnified]

/-- Witness for C2: 128 zero bytes make every reader report
tag-absent. -/
theorem c2_absent_editions_accessors_witness :
    ID3.New (List.replicate 128 0) = .ok clearedUnified ∧
    ID3.Genres clearedUnified = some [V1.unknownStr] := by
  have h := c2_absent_editions_accessors (List.replicate 128 0)
    (by decide) (by decide) (by decide) (by decide)
  exact ⟨h.1, h.2.2.2.2.2.2⟩

/-- Counterexample to C2 as stated: on the all-zero 128-byte source the
unified Genres accessor returns ["Unknown"], not the empty list. -/
theorem c2_counterexample :
    ID3.New (List.replicate 128 0) = .ok clearedUnified ∧
    ID3.Genres clearedUnified = some [V1.unknownStr] ∧
    ID3.Genres clearedUnified ≠ some [] :=
  ⟨by decide, by decide, by decide⟩

/-- Claim C3 is violated by the code: a v2.4 tag holding a
Text-Information frame whose declared body length is zero makes the
reader index `frameBody[0]` on an empty body — a runtime panic — so tag
parsing does not complete and no empty-string frame is produced. -/
theorem c3_zero_length_text_frame : V24.New zeroLenTextSrc = .panicked := by decide

/-- Claim C4, amended.  The UTF-16 decoder does not consume the 2-byte
order mark: it decodes the mark as the code point U+FEFF (UTF-8 bytes
EF BB BF), so the input FF FE 41 00 42 00 decodes to the
three-character string U+FEFF, A, B — both at the decoder itself and
through a full v2.4 Text-Information frame. -/
theorem c4_bom_not_consumed :
    ToUTF8 [255, 254, 65, 0, 66, 0] ⟨.utf16, 2⟩ = [239, 187, 191, 65, 66] ∧
    V24.New utf16TitleSrc = .ok utf16TitleTag ∧
    V24.Title utf16TitleTag = [239, 187, 191, 65, 66] :=
  ⟨by decide, by decide, by decide⟩

/-- Counterexample to C4 as stated: the bytes FF FE 41 00 42 00 do not
decode to the two-character string "AB". -/
theorem c4_counterexample :
    ToUTF8 [255, 254, 65, 0, 66, 0] ⟨.utf16, 2⟩ ≠ [65, 66] := by decide

/-- Claim C5 is violated by the code: a v2.2 tag whose TCO frame
decodes to "Miscellaneous(31)Ska" parses fine, but the Genres accessor
panics (modelled `none`): `genreProcess` is handed the match-free
segment "Miscellaneous" and indexes the nil result of
`FindStringIndex`, so no two-element genre list is produced. -/
theorem c5_genre_free_text_prefix :
    V22.New misc31SkaSrc = .ok misc31SkaTag ∧ V22.Genres misc31SkaTag = none :=
  ⟨by decide, by decide⟩

/-- Claim C6, amended.  The Comments body 00 65 6E 67 00 68 69 00 62
79 65 decodes (in both v2.2 and v2.3) to language "eng", an *empty*
short content description and the actual text "hi\x00bye": the byte at
offset 4 is the zero terminator, so the description region is empty and
everything after it is the text. -/
theorem c6_comments_vector_decode :
    V22.New commentsSrc22 = .ok commentsTag22 ∧
    V23.New commentsSrc23 = .ok commentsTag23 :=
  ⟨by decide, by decide⟩

/-- Counterexample to C6 as stated: the parse of the v2.2 comments
vector is not the frame with description "hi" and text "bye". -/
theorem c6_counterexample :
    V22.New commentsSrc22 = .ok commentsTag22 ∧
    V22.New commentsSrc22 ≠
      .ok ⟨0, false, false,
        [.comments ⟨[67, 79, 77], 11⟩ ⟨.iso88591, 1⟩ [101, 110, 103] [104, 105]
          [98, 121, 101]]⟩ :=
  ⟨by decide, by decide⟩

/-- Claim C7, amended.  A User-Defined-Text frame whose body holds no
zero byte at any scanned position after the leading encoding byte
decodes with an empty description and an *empty* value (both fields
keep their zero values — the remainder of the body is discarded, not
taken as the value), and no error is raised; shown for the v2.4 and
v2.3 decoders, plus a whole-tag v2.4 parse. -/
theorem c7_no_terminator_defaults :
    (∀ (fb : V24.FrameBase) (frameSize framesSize : Nat) (body : GoStr) (e0 : Nat)
      (enc : Encoding),
      goIndex body 0 = some e0 →
      Encodings.get? e0 = some enc →
      (∀ i, 1 ≤ i → i < frameSize → (i - 1) % enc.size = 0 → body.getD i 0 ≠ 0) →
      V24.mkFrame fb (some V24.FrameType.TypeUserDefinedTextInformation) frameSize
        framesSize body = some (.userDefinedText fb enc [] [])) ∧
    (∀ (fb : V23.FrameBase) (frameSize : Nat) (body : GoStr) (e0 : Nat) (enc : Encoding),
      goIndex body 0 = some e0 →
      Encodings.get? e0 = some enc →
      (∀ i, 1 ≤ i → i < frameSize → (i - 1) % enc.size = 0 → body.getD i 0 ≠ 0) →
      V23.mkFrame fb (some V23.FrameType.TypeUserDefinedTextInformation) frameSize body =
        some (.userDefinedText fb enc [] [])) ∧
    V24.New noTermTxxxSrc = .ok noTermTxxxTag :=
  ⟨v24_txxx_no_term, v23_txxx_no_term, by decide⟩

/-- Witness for C7: the v2.4 TXXX body 00 41 42 (no terminator after
the encoding byte) decodes to empty description and empty value. -/
theorem c7_no_terminator_defaults_witness :
    V24.mkFrame (fb24 [84, 88, 88, 88] 3)
      (some V24.FrameType.TypeUserDefinedTextInformation) 3 13 [0, 65, 66] =
      some (.userDefinedText (fb24 [84, 88, 88, 88] 3) ⟨.iso88591, 1⟩ [] []) :=
  c7_no_terminator_defaults.1 (fb24 [84, 88, 88, 88] 3) 3 13 [0, 65, 66] 0 ⟨.iso88591, 1⟩
    (by decide) (by decide)
    (by intro i hi1 hi2 _; interval_cases i <;> decide)

/-- Counterexample to C7 as stated: the terminator-free TXXX frame does
not decode with the body remainder "AB" as its value. -/
theorem c7_counterexample :
    V24.New noTermTxxxSrc = .ok noTermTxxxTag ∧
    V24.New noTermTxxxSrc ≠
      .ok ⟨[.userDefinedText (fb24 [84, 88, 88, 88] 3) ⟨.iso88591, 1⟩ [] [65, 66]],
        13, false, false, false, false⟩ :=
  ⟨by decide, by decide⟩

/-- Claim C8.  `ByteToInt` decodes 4-byte and 3-byte size fields as
plain big-endian base-256 integers with no synch-safe masking, and the
readers use it for both the header frame-area size and the frame body
sizes: a v2.4 header whose size bytes 81 82 83 84 all carry the top bit
yields exactly 0x81·2^24 + 0x82·2^16 + 0x83·2^8 + 0x84, and a v2.2
frame whose 3-byte size field is 00 00 80 reads a 128-byte body. -/
theorem c8_plain_bigendian_sizes :
    (∀ b6 b7 b8 b9 : Nat, ByteToInt [b6, b7, b8, b9] =
      b6 * 2 ^ 24 + b7 * 2 ^ 16 + b8 * 2 ^ 8 + b9) ∧
    (∀ s0 s1 s2 : Nat, ByteToInt [s0, s1, s2] = s0 * 2 ^ 16 + s1 * 2 ^ 8 + s2) ∧
    V24.New bigSizeSrc = .ok ⟨[], 2172814212, false, false, false, false⟩ ∧
    129 * 2 ^ 24 + 130 * 2 ^ 16 + 131 * 2 ^ 8 + 132 = 2172814212 ∧
    V22.New frameSize128Src = .ok ⟨0, false, false,
      [.text ⟨[84, 65, 76], 128⟩ ⟨.iso88591, 1⟩ (List.replicate 127 0)]⟩ := by
  refine ⟨?_, ?_, by decide, by decide, by decide⟩
  · intro b6 b7 b8 b9
    simp [ByteToInt, List.foldl]
    ring
  · intro s0 s1 s2
    simp [ByteToInt, List.foldl]
    ring

/-- Claim C9.  The track accessor splits the first TRCK
Text-Information frame's text on "/" and parses both sides as decimal
numbers, defaulting an absent position to zero: for all naturals a, b
the text a/b yields (a, b) and the text a alone yields (a, 0), in both
the v2.4 and v2.3 accessors; the concrete vectors "3/12" and "3" run
through the whole v2.4 reader. -/
theorem c9_track_split :
    (∀ a b : Nat, V24.TrackNumberAndPosition
      ⟨[.text (fb24 [84, 82, 67, 75] 0) ⟨.iso88591, 1⟩
          (natToChars a ++ 47 :: natToChars b)], 0, false, false, false, false⟩ =
        ((a : Int), (b : Int))) ∧
    (∀ a : Nat, V24.TrackNumberAndPosition
      ⟨[.text (fb24 [84, 82, 67, 75] 0) ⟨.iso88591, 1⟩ (natToChars a)],
        0, false, false, false, false⟩ = ((a : Int), 0)) ∧
    (∀ a b : Nat, V23.TrackNumberAndPosition
      ⟨0, false, false, false,
        [.text ⟨[84, 82, 67, 75], 0⟩ ⟨.iso88591, 1⟩
          (natToChars a ++ 47 :: natToChars b)]⟩ = ((a : Int), (b : Int))) ∧
    (∀ a : Nat, V23.TrackNumberAndPosition
      ⟨0, false, false, false,
        [.text ⟨[84, 82, 67, 75], 0⟩ ⟨.iso88591, 1⟩ (natToChars a)]⟩ = ((a : Int), 0)) ∧
    V24.New track312Src = .ok track312Tag ∧
    V24.TrackNumberAndPosition track312Tag = (3, 12) ∧
    V24.New track3Src = .ok track3Tag ∧
    V24.TrackNumberAndPosition track3Tag = (3, 0) :=
  ⟨v24_track_pair, v24_track_single, v23_track_pair, v23_track_single,
   by decide, by decide, by decide, by decide⟩

/-- Claim C10.  The single-valued v2.4 accessors Title, Album and Year
look only at the first frame (in on-disk order) carrying their
identifier: whenever that first frame is not a Text-Information frame,
the accessor returns the empty string, regardless of any later frame
with the same identifier. -/
theorem c10_first_frame_wins :
    (∀ (pre post : List V24.Frame) (u : V24.Frame) (s : Nat) (f1 f2 f3 f4 : Bool),
      (∀ f ∈ pre, V24.Frame.idOf f ≠ [84, 73, 84, 50]) →
      u.idOf = [84, 73, 84, 50] →
      (∀ b e tx, u ≠ V24.Frame.text b e tx) →
      V24.Title ⟨pre ++ u :: post, s, f1, f2, f3, f4⟩ = []) ∧
    (∀ (pre post : List V24.Frame) (u : V24.Frame) (s : Nat) (f1 f2 f3 f4 : Bool),
      (∀ f ∈ pre, V24.Frame.idOf f ≠ [84, 65, 76, 66]) →
      u.idOf = [84, 65, 76, 66] →
      (∀ b e tx, u ≠ V24.Frame.text b e tx) →
      V24.Album ⟨pre ++ u :: post, s, f1, f2, f3, f4⟩ = []) ∧
    (∀ (pre post : List V24.Frame) (u : V24.Frame) (s : Nat) (f1 f2 f3 f4 : Bool),
      (∀ f ∈ pre, V24.Frame.idOf f ≠ [84, 68, 82, 67]) →
      u.idOf = [84, 68, 82, 67] →
      (∀ b e tx, u ≠ V24.Frame.text b e tx) →
      V24.Year ⟨pre ++ u :: post, s, f1, f2, f3, f4⟩ = []) :=
  ⟨v24_title_first_only, v24_album_first_only, v24_year_first_only⟩

/-- Witness for C10: a tag whose first TIT2 frame is an opaque unknown
frame and whose second TIT2 frame is a Text-Information frame titled
"X" still reports the empty title. -/
theorem c10_first_frame_wins_witness :
    V24.Title ⟨[V24.Frame.unknown (fb24 [84, 73, 84, 50] 0) [],
      V24.Frame.text (fb24 [84, 73, 84, 50] 1) ⟨.iso88591, 1⟩ [88]],
      0, false, false, false, false⟩ = [] :=
  c10_first_frame_wins.1 []
    [V24.Frame.text (fb24 [84, 73, 84, 50] 1) ⟨.iso88591, 1⟩ [88]]
    (V24.Frame.unknown (fb24 [84, 73, 84, 50] 0) []) 0 false false false false
    (by simp) (by decide) (fun b e tx h => V24.Frame.noConfusion h)
